import Mathlib

/-!
Shallow embedding of `src/server/api/routes/game_routes.py` (tic-tac-toe
decision engine) and proofs about it.

Conventions of the embedding:
* A grid cell is `Option Nat` — `none` is Python's `None` (empty), `some 1`
  is `PLAYER_X`, `some 2` is `PLAYER_O`.
* Python list indexing `grid[i]` is modelled by `List.getD i none`; every
  indexing operation performed by the source is in range for the grids the
  theorems quantify over, so the default is never exercised there.
* The mutating method `Board.make_move` returns the updated board; the
  pair-returning `Board.get_winner` returns the winner value together with
  the board carrying the updated `winning_index` field (the Python method
  mutates `self.winning_index` as a side effect).
* Python's unbounded recursion in `minimax` is modelled with an explicit
  fuel parameter (`minimaxF`); `minimax` supplies fuel `grid.length + 1`,
  which is proven sufficient (the recursion depth of the source is bounded
  by the number of empty cells, see the fuel-stability lemmas).
* The HTTP handler `ai_move` is modelled as a pure function of the decoded
  request fields; the process-wide random source is modelled by explicit
  oracle arguments (`pick` for `random.choice`, `coin` for
  `random.random() < 0.5`, `rand09` for `random.randint(0, 8)`).
-/

/-- Constant `DIMENSIONS = 3` from the source. -/
def DIMENSIONS : Nat := 3

/-- Constant `DRAW = 0` from the source. -/
def DRAW : Nat := 0

/-- Constant `PLAYER_X = 1` from the source. -/
def PLAYER_X : Nat := 1

/-- Constant `PLAYER_O = 2` from the source. -/
def PLAYER_O : Nat := 2

/-- The `SCORES` dictionary: X scores +1, a draw 0, O scores −1.  The
Python dict raises on other keys; the catch-all arm returns 0 and is never
exercised by the theorems below (players and winners stay in `{0, 1, 2}`). -/
def SCORES : Nat → Int
  | 1 => 1
  | 0 => 0
  | 2 => -1
  | _ => 0

/-- The values of the `GAME_MODES` dictionary (its keys equal its values). -/
def GAME_MODES_values : List String := ["easy", "medium", "difficult"]

/-- The `Board` class: a 9-cell grid plus the `winning_index` attribute set
by `get_winner`.  `__init__` sets `winning_index = None`. -/
structure Board where
  grid : List (Option Nat)
  winning_index : Option Nat
deriving DecidableEq, Repr

/-- Method `Board.make_move`: place `player` at `square` only if that square
is empty; otherwise a silent no-op. -/
def Board.make_move (b : Board) (square : Nat) (player : Nat) : Board :=
  if b.grid.getD square none = none then
    { b with grid := b.grid.set square (some player) }
  else b

/-- Method `Board.get_empty_squares`: `[i for i, square in enumerate(grid)
if square is None]` — the ascending list of empty indices. -/
def get_empty_squares (grid : List (Option Nat)) : List Nat :=
  (grid.enum.filter (fun p => p.2.isNone)).map Prod.fst

/-- Method `Board.is_empty`: the board has `DIMENSIONS ** 2` empty squares. -/
def is_empty (grid : List (Option Nat)) : Bool :=
  (get_empty_squares grid).length = DIMENSIONS ^ 2

/-- The `winning_combos` table from `Board.get_winner`: rows, columns,
diagonals, in this fixed order. -/
def winning_combos : List (List Nat) :=
  [[0, 1, 2], [3, 4, 5], [6, 7, 8],
   [0, 3, 6], [1, 4, 7], [2, 5, 8],
   [0, 4, 8], [2, 4, 6]]

/-- The loop body of `Board.get_winner`: scan the enumerated combos and
return the first `(index, winner)` whose three cells are non-`None` and
equal (`grid[combo[0]] is not None and grid[combo[0]] == grid[combo[1]] ==
grid[combo[2]]`). -/
def scan_combos (grid : List (Option Nat)) : List (Nat × List Nat) → Option (Nat × Nat)
  | [] => none
  | (i, combo) :: rest =>
    let a := grid.getD (combo.getD 0 0) none
    if a ≠ none ∧ a = grid.getD (combo.getD 1 0) none ∧
        grid.getD (combo.getD 1 0) none = grid.getD (combo.getD 2 0) none then
      some (i, a.getD 0)
    else scan_combos grid rest

/-- Method `Board.get_winner` on `self.grid`: returns the winner (`some
player` for a completed line, `some DRAW` for a full drawn board, `none`
while ongoing) together with the board whose `winning_index` field reflects
the Python method's mutation of `self.winning_index` (set to the line index
on a win, reset to `None` on a draw, left unchanged otherwise). -/
def Board.get_winner (b : Board) : Option Nat × Board :=
  match scan_combos b.grid winning_combos.enum with
  | some (i, w) => (some w, { b with winning_index := some i })
  | none =>
    if (get_empty_squares b.grid).length = 0 then
      (some DRAW, { b with winning_index := none })
    else (none, b)

/-- Method `Board.clone`: `Board(self.grid.copy())` — a fresh board with the
same cell sequence and a reset (`None`) `winning_index`. -/
def Board.clone (b : Board) : Board :=
  { grid := b.grid, winning_index := none }

/-- Function `switch_player`: `PLAYER_O if player == PLAYER_X else PLAYER_X`. -/
def switch_player (player : Nat) : Nat :=
  if player = PLAYER_X then PLAYER_O else PLAYER_X

/-- Fuelled version of the `minimax` function.  The body below fuel `0` is
never reached when the fuel exceeds the number of empty squares (proven in
the fuel-stability lemma); apart from the fuel the body is a literal
transcription of the source: look up the mover's multiplier, return the
terminal score with no move when `get_winner` is decisive, otherwise fold
the loop over `get_empty_squares`, tracking `(max_score, best_move)`
starting from `(-1, None)` and updating on `score >= max_score`, and return
`(multiplier * max_score, best_move)`. -/
def minimaxF : Nat → Board → Nat → Int × Option Nat
  | 0, _, _ => (0, none)
  | fuel + 1, board, player =>
    let multiplier := SCORES player
    match (Board.get_winner board).1 with
    | some winner => (SCORES winner, none)
    | none =>
      let r := (get_empty_squares board.grid).foldl
        (fun acc square =>
          let board_copy := Board.clone board
          let board_copy := Board.make_move board_copy square player
          let score := multiplier * (minimaxF fuel board_copy (switch_player player)).1
          if score ≥ acc.1 then (score, some square) else acc)
        ((-1 : Int), none)
      (multiplier * r.1, r.2)

/-- The `minimax` function of the source; the fuel `grid.length + 1` always
suffices because each recursive call fills one empty square. -/
def minimax (board : Board) (player : Nat) : Int × Option Nat :=
  minimaxF (board.grid.length + 1) board player

/-- The perspective-normalized value the minimax loop assigns to playing
`square`: `multiplier * minimax(board_copy, switch_player(player))[0]`
where `board_copy` is a clone of `board` with `square` filled by `player`. -/
def normScore (board : Board) (player : Nat) (square : Nat) : Int :=
  SCORES player *
    (minimax (Board.make_move (Board.clone board) square player) (switch_player player)).1

/-- The condition tested on one line by `get_winner` (and by the spec's
outcome description): the line's three cells are non-empty and identical. -/
def line_wins (grid : List (Option Nat)) (combo : List Nat) : Prop :=
  grid.getD (combo.getD 0 0) none ≠ none ∧
    grid.getD (combo.getD 0 0) none = grid.getD (combo.getD 1 0) none ∧
    grid.getD (combo.getD 1 0) none = grid.getD (combo.getD 2 0) none

instance (grid : List (Option Nat)) (combo : List Nat) :
    Decidable (line_wins grid combo) := by
  unfold line_wins; infer_instance

/-- Error taxonomy of the `ai_move` endpoint (spec §7).  Each constructor
stands for one distinct 4xx/5xx response body of the handler. -/
inductive AiError where
  | invalidDimension
  | invalidPlayer
  | invalidMode
  | noLegalMove
  | internalError
deriving DecidableEq, Repr

/-- The `ai_move` handler after JSON decoding, as a pure function.  The
oracle arguments stand for the process-wide random source: `pick` models
`random.choice` (its contract: it returns an element of the given list),
`coin` models `random.random() < 0.5`, and `rand09` models
`random.randint(0, 8)` (its contract: a result in `[0, 8]`).  The
validation order, the three mode policies, and the final
`move_index in empty_squares` guard follow the source line by line. -/
def ai_move (grid : List (Option Nat)) (ai_player : Nat) (mode : String)
    (pick : List Nat → Nat) (coin : Bool) (rand09 : Nat) :
    Except AiError (Nat × List (Option Nat)) :=
  if grid.length ≠ 9 then .error .invalidDimension
  else if ¬(ai_player = PLAYER_X ∨ ai_player = PLAYER_O) then .error .invalidPlayer
  else if ¬(mode ∈ GAME_MODES_values) then .error .invalidMode
  else
    let board : Board := { grid := grid, winning_index := none }
    let empty_squares := get_empty_squares board.grid
    if empty_squares = [] then .error .noLegalMove
    else
      let move_index : Option Nat :=
        if mode = "easy" then
          some (pick empty_squares)
        else if mode = "medium" then
          if is_empty board.grid || coin then some (pick empty_squares)
          else (minimax board ai_player).2
        else
          if is_empty board.grid then some rand09
          else (minimax board ai_player).2
      match move_index with
      | some mi =>
        if mi ∈ empty_squares then
          .ok (mi, grid.set mi (some ai_player))
        else .error .internalError
      | none => .error .internalError

/-!
Reference-semantics model for the aliasing claims.  A `Store` is the heap
of live grid objects; a `BoardObj` holds a reference into it, mirroring how
a Python `Board` holds a reference to its `grid` list.  `cloneS` performs
`Board(self.grid.copy())`: it allocates a fresh grid object holding a copy
of the cell values (so the clone and the original never alias), and the
new board's `winning_index` starts as `None`.  `make_moveS` is the mutating
`make_move` acting on the heap.
-/

/-- Heap of grid objects, addressed by allocation order. -/
abbrev Store := List (List (Option Nat))

/-- A board as an object: a reference to a grid in the store plus the
`winning_index` attribute. -/
structure BoardObj where
  gridRef : Nat
  winning_index : Option Nat
deriving DecidableEq, Repr

/-- Read the grid object a board references. -/
def readGrid (s : Store) (r : Nat) : List (Option Nat) :=
  List.getD s r []

/-- Method `Board.make_move` under reference semantics: mutate the
referenced grid in place (if the square is empty), leaving every other
grid object untouched. -/
def make_moveS (s : Store) (b : BoardObj) (square : Nat) (player : Nat) : Store :=
  let g := readGrid s b.gridRef
  if g.getD square none = none then
    List.set s b.gridRef (g.set square (some player))
  else s

/-- Method `Board.clone` under reference semantics:
`Board(self.grid.copy())` allocates a fresh grid holding a copy of the
cell values and returns a board referencing it, with `winning_index = None`. -/
def cloneS (s : Store) (b : BoardObj) : Store × BoardObj :=
  let copied := readGrid s b.gridRef
  (s ++ [copied], { gridRef := s.length, winning_index := none })

/-!
Strategy certificates.  `DTree` is a proof artefact (not part of the
source): a tree of moves used to bound the minimax value of the empty
board.  `secures d fuel b p t` checks, by walking `t`, that player `d`
(the defender) can guarantee a non-losing outcome from board `b` with `p`
to move: at nodes where the defender moves the tree dictates one legal
move, at nodes where the opponent moves the tree provides one subtree for
every empty square, and at terminal nodes the recorded winner must not be
the defender's opponent.  Soundness with respect to `minimaxF` is proven
below (`secures_sound`); the concrete certificates were computed offline
and are verified here by `decide`.
-/

/-- Strategy-certificate tree. -/
inductive DTree where
  | leaf : DTree
  | forced : Nat → DTree → DTree
  | branch : List DTree → DTree

/-- Certificate checker: player `d` secures `0 ≤ SCORES d * value` from
board `b` with `p` to move, following certificate `t`, within `fuel`. -/
def secures (d : Nat) : Nat → Board → Nat → DTree → Bool
  | 0, _, _, _ => false
  | fuel + 1, b, p, t =>
    match (Board.get_winner b).1 with
    | some w => decide (0 ≤ SCORES d * SCORES w)
    | none =>
      match t with
      | DTree.leaf => false
      | DTree.forced m t2 =>
        decide (p = d) && (get_empty_squares b.grid).contains m &&
          secures d fuel (Board.make_move (Board.clone b) m p) (switch_player p) t2
      | DTree.branch ts =>
        decide (p ≠ d) && decide ((get_empty_squares b.grid).length = ts.length) &&
          ((get_empty_squares b.grid).zip ts).all
            (fun pr =>
              secures d fuel (Board.make_move (Board.clone b) pr.1 p) (switch_player p) pr.2)

instance {e a : Type} [DecidableEq e] [DecidableEq a] : DecidableEq (Except e a)
  | Except.error x, Except.error y =>
    if h : x = y then isTrue (by rw [h]) else
      isFalse (by intro hc; injection hc; contradiction)
  | Except.error _, Except.ok _ => isFalse (by intro hc; cases hc)
  | Except.ok _, Except.error _ => isFalse (by intro hc; cases hc)
  | Except.ok x, Except.ok y =>
    if h : x = y then isTrue (by rw [h]) else
      isFalse (by intro hc; injection hc; contradiction)

/-- The all-empty 9-cell board. -/
def emptyBoard : Board :=
  { grid := [none, none, none, none, none, none, none, none, none],
    winning_index := none }

/-- Proof-infrastructure name for the loop of `minimax`: fold the
`(max_score, best_move)` update over a list of squares, scoring each square
with `f`.  `minimaxF`'s loop is literally `foldStep` applied to the
perspective-normalized child score. -/
def foldStep (f : Nat → Int) (l : List Nat) : Int × Option Nat :=
  l.foldl (fun acc sq => if f sq ≥ acc.1 then (f sq, some sq) else acc) ((-1 : Int), none)

/-- The perspective-normalized child score used inside `minimaxF` at the
given fuel (the fuelled counterpart of `normScore`). -/
def normScoreF (fuel : Nat) (b : Board) (p : Nat) (sq : Nat) : Int :=
  SCORES p *
    (minimaxF fuel (Board.make_move (Board.clone b) sq p) (switch_player p)).1
def certO_vs_X : DTree :=
  (.branch [(.forced 4 (.branch [(.forced 2 (.branch [(.forced 6 .leaf), (.forced 6 .leaf), (.forced 3 (.branch [(.forced 7 (.branch [.leaf])), (.forced 5 .leaf), (.forced 5 .leaf)])), (.forced 3 (.branch [(.forced 6 .leaf), (.forced 5 .leaf), (.forced 5 .leaf)])), (.forced 3 (.branch [(.forced 6 .leaf), (.forced 5 .leaf), (.forced 5 .leaf)]))])), (.forced 1 (.branch [(.forced 7 .leaf), (.forced 7 .leaf), (.forced 3 (.branch [(.forced 7 .leaf), (.forced 5 .leaf), (.forced 5 .leaf)])), (.forced 3 (.branch [(.forced 8 (.branch [.leaf])), (.forced 5 .leaf), (.forced 5 .leaf)])), (.forced 5 (.branch [(.forced 7 .leaf), (.forced 3 .leaf), (.forced 3 .leaf)]))])), (.forced 6 (.branch [(.forced 2 .leaf), (.forced 1 (.branch [(.forced 7 .leaf), (.forced 5 (.branch [.leaf])), (.forced 7 .leaf)])), (.forced 1 (.branch [(.forced 7 .leaf), (.forced 2 .leaf), (.forced 2 .leaf)])), (.forced 2 .leaf), (.forced 1 (.branch [(.forced 7 .leaf), (.forced 2 .leaf), (.forced 2 .leaf)]))])), (.forced 1 (.branch [(.forced 7 .leaf), (.forced 6 (.branch [(.forced 7 .leaf), (.forced 2 .leaf), (.forced 2 .leaf)])), (.forced 7 .leaf), (.forced 6 (.branch [(.forced 8 (.branch [.leaf])), (.forced 2 .leaf), (.forced 2 .leaf)])), (.forced 2 (.branch [(.forced 6 .leaf), (.forced 7 .leaf), (.forced 6 .leaf)]))])), (.forced 3 (.branch [(.forced 5 .leaf), (.forced 1 (.branch [(.forced 7 .leaf), (.forced 5 .leaf), (.forced 5 .leaf)])), (.forced 1 (.branch [(.forced 7 .leaf), (.forced 8 (.branch [.leaf])), (.forced 7 .leaf)])), (.forced 5 .leaf), (.forced 5 .leaf)])), (.forced 3 (.branch [(.forced 2 (.branch [(.forced 6 .leaf), (.forced 5 .leaf), (.forced 5 .leaf)])), (.forced 5 .leaf), (.forced 2 (.branch [(.forced 6 .leaf), (.forced 8 (.branch [.leaf])), (.forced 6 .leaf)])), (.forced 5 .leaf), (.forced 5 .leaf)])), (.forced 1 (.branch [(.forced 5 (.branch [(.forced 7 .leaf), (.forced 3 .leaf), (.forced 3 .leaf)])), (.forced 6 (.branch [(.forced 7 .leaf), (.forced 2 .leaf), (.forced 2 .leaf)])), (.forced 2 (.branch [(.forced 6 .leaf), (.forced 7 .leaf), (.forced 6 .leaf)])), (.forced 7 .leaf), (.forced 6 (.branch [(.forced 5 (.branch [.leaf])), (.forced 2 .leaf), (.forced 2 .leaf)]))]))])), (.forced 0 (.branch [(.forced 3 (.branch [(.forced 6 .leaf), (.forced 6 .leaf), (.forced 4 (.branch [(.forced 8 .leaf), (.forced 5 .leaf), (.forced 5 .leaf)])), (.forced 4 (.branch [(.forced 6 .leaf), (.forced 5 .leaf), (.forced 5 .leaf)])), (.forced 5 (.branch [(.forced 6 .leaf), (.forced 4 .leaf), (.forced 4 .leaf)]))])), (.forced 4 (.branch [(.forced 8 .leaf), (.forced 2 (.branch [(.forced 8 .leaf), (.forced 6 .leaf), (.forced 6 .leaf)])), (.forced 8 .leaf), (.forced 2 (.branch [(.forced 6 .leaf), (.forced 8 .leaf), (.forced 6 .leaf)])), (.forced 2 (.branch [(.forced 6 .leaf), (.forced 7 (.branch [.leaf])), (.forced 6 .leaf)]))])), (.forced 7 (.branch [(.forced 6 (.branch [(.forced 8 .leaf), (.forced 3 .leaf), (.forced 3 .leaf)])), (.forced 5 (.branch [(.forced 6 (.branch [.leaf])), (.forced 2 (.branch [.leaf])), (.forced 2 (.branch [.leaf]))])), (.forced 3 (.branch [(.forced 6 .leaf), (.forced 2 (.branch [.leaf])), (.forced 6 .leaf)])), (.forced 2 (.branch [(.forced 5 (.branch [.leaf])), (.forced 3 (.branch [.leaf])), (.forced 3 (.branch [.leaf]))])), (.forced 2 (.branch [(.forced 5 (.branch [.leaf])), (.forced 3 (.branch [.leaf])), (.forced 3 (.branch [.leaf]))]))])), (.forced 6 (.branch [(.forced 3 .leaf), (.forced 4 (.branch [(.forced 8 .leaf), (.forced 2 .leaf), (.forced 2 .leaf)])), (.forced 3 .leaf), (.forced 3 .leaf), (.forced 2 (.branch [(.forced 4 .leaf), (.forced 3 .leaf), (.forced 3 .leaf)]))])), (.forced 4 (.branch [(.forced 3 (.branch [(.forced 8 .leaf), (.forced 5 .leaf), (.forced 5 .leaf)])), (.forced 8 .leaf), (.forced 8 .leaf), (.forced 8 .leaf), (.forced 7 (.branch [(.forced 5 (.branch [.leaf])), (.forced 2 (.branch [.leaf])), (.forced 2 (.branch [.leaf]))]))])), (.forced 4 (.branch [(.forced 3 (.branch [(.forced 6 .leaf), (.forced 5 .leaf), (.forced 5 .leaf)])), (.forced 2 (.branch [(.forced 6 .leaf), (.forced 8 .leaf), (.forced 6 .leaf)])), (.forced 2 (.branch [(.forced 6 .leaf), (.forced 8 .leaf), (.forced 6 .leaf)])), (.forced 8 .leaf), (.forced 6 (.branch [(.forced 3 .leaf), (.forced 2 .leaf), (.forced 2 .leaf)]))])), (.forced 4 (.branch [(.forced 5 (.branch [(.forced 6 (.branch [.leaf])), (.forced 3 .leaf), (.forced 3 .leaf)])), (.forced 2 (.branch [(.forced 6 .leaf), (.forced 7 (.branch [.leaf])), (.forced 6 .leaf)])), (.forced 2 (.branch [(.forced 6 .leaf), (.forced 7 (.branch [.leaf])), (.forced 6 .leaf)])), (.forced 7 (.branch [(.forced 5 (.branch [.leaf])), (.forced 2 (.branch [.leaf])), (.forced 2 (.branch [.leaf]))])), (.forced 6 (.branch [(.forced 3 .leaf), (.forced 2 .leaf), (.forced 2 .leaf)]))]))])), (.forced 4 (.branch [(.forced 1 (.branch [(.forced 7 .leaf), (.forced 7 .leaf), (.forced 3 (.branch [(.forced 7 .leaf), (.forced 5 .leaf), (.forced 5 .leaf)])), (.forced 3 (.branch [(.forced 8 (.branch [.leaf])), (.forced 5 .leaf), (.forced 5 .leaf)])), (.forced 5 (.branch [(.forced 7 .leaf), (.forced 3 .leaf), (.forced 3 .leaf)]))])), (.forced 0 (.branch [(.forced 8 .leaf), (.forced 8 .leaf), (.forced 3 (.branch [(.forced 8 .leaf), (.forced 5 .leaf), (.forced 5 .leaf)])), (.forced 3 (.branch [(.forced 6 .leaf), (.forced 5 .leaf), (.forced 5 .leaf)])), (.forced 5 (.branch [(.forced 6 (.branch [.leaf])), (.forced 3 .leaf), (.forced 3 .leaf)]))])), (.forced 0 (.branch [(.forced 8 .leaf), (.forced 8 .leaf), (.forced 1 (.branch [(.forced 7 .leaf), (.forced 8 .leaf), (.forced 7 .leaf)])), (.forced 8 .leaf), (.forced 5 (.branch [(.forced 6 (.branch [.leaf])), (.forced 7 (.branch [.leaf])), (.forced 6 (.branch [.leaf]))]))])), (.forced 8 (.branch [(.forced 1 (.branch [(.forced 7 .leaf), (.forced 7 .leaf), (.forced 3 (.branch [.leaf]))])), (.forced 0 .leaf), (.forced 0 .leaf), (.forced 0 .leaf), (.forced 0 .leaf)])), (.forced 1 (.branch [(.forced 3 (.branch [(.forced 7 .leaf), (.forced 5 .leaf), (.forced 5 .leaf)])), (.forced 0 (.branch [(.forced 7 .leaf), (.forced 8 .leaf), (.forced 7 .leaf)])), (.forced 7 .leaf), (.forced 8 (.branch [(.forced 3 (.branch [.leaf])), (.forced 0 .leaf), (.forced 0 .leaf)])), (.forced 7 .leaf)])), (.forced 3 (.branch [(.forced 5 .leaf), (.forced 0 (.branch [(.forced 6 .leaf), (.forced 5 .leaf), (.forced 5 .leaf)])), (.forced 8 (.branch [(.forced 1 (.branch [.leaf])), (.forced 0 .leaf), (.forced 0 .leaf)])), (.forced 5 .leaf), (.forced 5 .leaf)])), (.forced 5 (.branch [(.forced 1 (.branch [(.forced 7 .leaf), (.forced 3 .leaf), (.forced 3 .leaf)])), (.forced 3 .leaf), (.forced 0 (.branch [(.forced 6 (.branch [.leaf])), (.forced 7 (.branch [.leaf])), (.forced 6 (.branch [.leaf]))])), (.forced 3 .leaf), (.forced 3 .leaf)]))])), (.forced 0 (.branch [(.forced 4 (.branch [(.forced 8 .leaf), (.forced 2 (.branch [(.forced 8 .leaf), (.forced 6 .leaf), (.forced 6 .leaf)])), (.forced 8 .leaf), (.forced 2 (.branch [(.forced 6 .leaf), (.forced 8 .leaf), (.forced 6 .leaf)])), (.forced 2 (.branch [(.forced 6 .leaf), (.forced 7 (.branch [.leaf])), (.forced 6 .leaf)]))])), (.forced 4 (.branch [(.forced 8 .leaf), (.forced 8 .leaf), (.forced 1 (.branch [(.forced 7 .leaf), (.forced 8 .leaf), (.forced 7 .leaf)])), (.forced 8 .leaf), (.forced 5 (.branch [(.forced 6 (.branch [.leaf])), (.forced 7 (.branch [.leaf])), (.forced 6 (.branch [.leaf]))]))])), (.forced 5 (.branch [(.forced 7 (.branch [(.forced 6 (.branch [.leaf])), (.forced 2 (.branch [.leaf])), (.forced 2 (.branch [.leaf]))])), (.forced 6 (.branch [(.forced 7 (.branch [.leaf])), (.forced 1 (.branch [.leaf])), (.forced 1 (.branch [.leaf]))])), (.forced 2 (.branch [(.forced 8 .leaf), (.forced 1 .leaf), (.forced 1 .leaf)])), (.forced 1 (.branch [(.forced 6 (.branch [.leaf])), (.forced 2 .leaf), (.forced 2 .leaf)])), (.forced 1 (.branch [(.forced 6 (.branch [.leaf])), (.forced 2 .leaf), (.forced 2 .leaf)]))])), (.forced 4 (.branch [(.forced 2 (.branch [(.forced 8 .leaf), (.forced 6 .leaf), (.forced 6 .leaf)])), (.forced 8 .leaf), (.forced 1 (.branch [(.forced 7 .leaf), (.forced 2 .leaf), (.forced 2 .leaf)])), (.forced 1 (.branch [(.forced 8 .leaf), (.forced 2 .leaf), (.forced 2 .leaf)])), (.forced 2 (.branch [(.forced 6 .leaf), (.forced 1 .leaf), (.forced 1 .leaf)]))])), (.forced 1 (.branch [(.forced 4 (.branch [(.forced 7 .leaf), (.forced 8 .leaf), (.forced 7 .leaf)])), (.forced 2 .leaf), (.forced 2 .leaf), (.forced 2 .leaf), (.forced 2 .leaf)])), (.forced 2 (.branch [(.forced 4 (.branch [(.forced 6 .leaf), (.forced 8 .leaf), (.forced 6 .leaf)])), (.forced 1 .leaf), (.forced 1 .leaf), (.forced 1 .leaf), (.forced 1 .leaf)])), (.forced 2 (.branch [(.forced 4 (.branch [(.forced 6 .leaf), (.forced 7 (.branch [.leaf])), (.forced 6 .leaf)])), (.forced 1 .leaf), (.forced 1 .leaf), (.forced 1 .leaf), (.forced 1 .leaf)]))])), (.forced 0 (.branch [(.forced 7 (.branch [(.forced 6 (.branch [(.forced 8 .leaf), (.forced 3 .leaf), (.forced 3 .leaf)])), (.forced 5 (.branch [(.forced 6 (.branch [.leaf])), (.forced 2 (.branch [.leaf])), (.forced 2 (.branch [.leaf]))])), (.forced 3 (.branch [(.forced 6 .leaf), (.forced 2 (.branch [.leaf])), (.forced 6 .leaf)])), (.forced 2 (.branch [(.forced 5 (.branch [.leaf])), (.forced 3 (.branch [.leaf])), (.forced 3 (.branch [.leaf]))])), (.forced 2 (.branch [(.forced 5 (.branch [.leaf])), (.forced 3 (.branch [.leaf])), (.forced 3 (.branch [.leaf]))]))])), (.forced 6 (.branch [(.forced 3 .leaf), (.forced 5 (.branch [(.forced 7 (.branch [.leaf])), (.forced 1 (.branch [.leaf])), (.forced 1 (.branch [.leaf]))])), (.forced 3 .leaf), (.forced 3 .leaf), (.forced 3 .leaf)])), (.forced 5 (.branch [(.forced 7 (.branch [(.forced 6 (.branch [.leaf])), (.forced 2 (.branch [.leaf])), (.forced 2 (.branch [.leaf]))])), (.forced 6 (.branch [(.forced 7 (.branch [.leaf])), (.forced 1 (.branch [.leaf])), (.forced 1 (.branch [.leaf]))])), (.forced 2 (.branch [(.forced 8 .leaf), (.forced 1 .leaf), (.forced 1 .leaf)])), (.forced 1 (.branch [(.forced 6 (.branch [.leaf])), (.forced 2 .leaf), (.forced 2 .leaf)])), (.forced 1 (.branch [(.forced 6 (.branch [.leaf])), (.forced 2 .leaf), (.forced 2 .leaf)]))])), (.forced 3 (.branch [(.forced 6 .leaf), (.forced 6 .leaf), (.forced 2 (.branch [(.forced 7 (.branch [.leaf])), (.forced 1 .leaf), (.forced 1 .leaf)])), (.forced 1 (.branch [(.forced 6 .leaf), (.forced 2 .leaf), (.forced 2 .leaf)])), (.forced 2 (.branch [(.forced 6 .leaf), (.forced 1 .leaf), (.forced 1 .leaf)]))])), (.forced 2 (.branch [(.forced 7 (.branch [(.forced 5 (.branch [.leaf])), (.forced 3 (.branch [.leaf])), (.forced 3 (.branch [.leaf]))])), (.forced 1 .leaf), (.forced 1 .leaf), (.forced 1 .leaf), (.forced 1 .leaf)])), (.forced 1 (.branch [(.forced 6 (.branch [(.forced 5 (.branch [.leaf])), (.forced 3 .leaf), (.forced 3 .leaf)])), (.forced 2 .leaf), (.forced 2 .leaf), (.forced 2 .leaf), (.forced 2 .leaf)])), (.forced 2 (.branch [(.forced 7 (.branch [(.forced 5 (.branch [.leaf])), (.forced 3 (.branch [.leaf])), (.forced 3 (.branch [.leaf]))])), (.forced 1 .leaf), (.forced 1 .leaf), (.forced 1 .leaf), (.forced 1 .leaf)]))])), (.forced 2 (.branch [(.forced 3 (.branch [(.forced 4 (.branch [(.forced 7 (.branch [.leaf])), (.forced 6 .leaf), (.forced 6 .leaf)])), (.forced 8 (.branch [(.forced 7 (.branch [.leaf])), (.forced 1 (.branch [.leaf])), (.forced 1 (.branch [.leaf]))])), (.forced 4 (.branch [(.forced 7 (.branch [.leaf])), (.forced 8 (.branch [.leaf])), (.forced 7 (.branch [.leaf]))])), (.forced 4 (.branch [(.forced 6 .leaf), (.forced 8 (.branch [.leaf])), (.forced 6 .leaf)])), (.forced 4 (.branch [(.forced 6 .leaf), (.forced 7 (.branch [.leaf])), (.forced 6 .leaf)]))])), (.forced 3 (.branch [(.forced 4 (.branch [(.forced 7 (.branch [.leaf])), (.forced 6 .leaf), (.forced 6 .leaf)])), (.forced 7 (.branch [(.forced 8 (.branch [.leaf])), (.forced 0 (.branch [.leaf])), (.forced 0 (.branch [.leaf]))])), (.forced 4 (.branch [(.forced 7 (.branch [.leaf])), (.forced 8 (.branch [.leaf])), (.forced 7 (.branch [.leaf]))])), (.forced 4 (.branch [(.forced 6 .leaf), (.forced 8 (.branch [.leaf])), (.forced 6 .leaf)])), (.forced 6 (.branch [(.forced 4 .leaf), (.forced 0 .leaf), (.forced 0 .leaf)]))])), (.forced 4 (.branch [(.forced 6 .leaf), (.forced 0 (.branch [(.forced 8 .leaf), (.forced 6 .leaf), (.forced 6 .leaf)])), (.forced 0 (.branch [(.forced 8 .leaf), (.forced 1 .leaf), (.forced 1 .leaf)])), (.forced 0 (.branch [(.forced 6 .leaf), (.forced 1 .leaf), (.forced 1 .leaf)])), (.forced 0 (.branch [(.forced 6 .leaf), (.forced 1 .leaf), (.forced 1 .leaf)]))])), (.forced 3 (.branch [(.forced 8 (.branch [(.forced 7 (.branch [.leaf])), (.forced 1 (.branch [.leaf])), (.forced 1 (.branch [.leaf]))])), (.forced 7 (.branch [(.forced 8 (.branch [.leaf])), (.forced 0 (.branch [.leaf])), (.forced 0 (.branch [.leaf]))])), (.forced 0 (.branch [(.forced 7 (.branch [.leaf])), (.forced 1 .leaf), (.forced 1 .leaf)])), (.forced 1 (.branch [(.forced 8 (.branch [.leaf])), (.forced 0 .leaf), (.forced 0 .leaf)])), (.forced 0 (.branch [(.forced 6 .leaf), (.forced 1 .leaf), (.forced 1 .leaf)]))])), (.forced 0 (.branch [(.forced 4 (.branch [(.forced 8 .leaf), (.forced 8 .leaf), (.forced 7 (.branch [.leaf]))])), (.forced 1 .leaf), (.forced 1 .leaf), (.forced 1 .leaf), (.forced 1 .leaf)])), (.forced 0 (.branch [(.forced 4 (.branch [(.forced 6 .leaf), (.forced 8 .leaf), (.forced 6 .leaf)])), (.forced 1 .leaf), (.forced 1 .leaf), (.forced 1 .leaf), (.forced 1 .leaf)])), (.forced 0 (.branch [(.forced 6 (.branch [(.forced 4 .leaf), (.forced 3 .leaf), (.forced 3 .leaf)])), (.forced 1 .leaf), (.forced 1 .leaf), (.forced 1 .leaf), (.forced 1 .leaf)]))])), (.forced 4 (.branch [(.forced 3 (.branch [(.forced 5 .leaf), (.forced 1 (.branch [(.forced 7 .leaf), (.forced 5 .leaf), (.forced 5 .leaf)])), (.forced 1 (.branch [(.forced 7 .leaf), (.forced 8 (.branch [.leaf])), (.forced 7 .leaf)])), (.forced 5 .leaf), (.forced 5 .leaf)])), (.forced 0 (.branch [(.forced 3 (.branch [(.forced 8 .leaf), (.forced 5 .leaf), (.forced 5 .leaf)])), (.forced 8 .leaf), (.forced 8 .leaf), (.forced 8 .leaf), (.forced 7 (.branch [(.forced 5 (.branch [.leaf])), (.forced 2 (.branch [.leaf])), (.forced 2 (.branch [.leaf]))]))])), (.forced 1 (.branch [(.forced 3 (.branch [(.forced 7 .leaf), (.forced 5 .leaf), (.forced 5 .leaf)])), (.forced 0 (.branch [(.forced 7 .leaf), (.forced 8 .leaf), (.forced 7 .leaf)])), (.forced 7 .leaf), (.forced 8 (.branch [(.forced 3 (.branch [.leaf])), (.forced 0 .leaf), (.forced 0 .leaf)])), (.forced 7 .leaf)])), (.forced 0 (.branch [(.forced 8 .leaf), (.forced 1 (.branch [(.forced 7 .leaf), (.forced 8 .leaf), (.forced 7 .leaf)])), (.forced 1 (.branch [(.forced 7 .leaf), (.forced 2 .leaf), (.forced 2 .leaf)])), (.forced 8 .leaf), (.forced 7 (.branch [(.forced 2 (.branch [.leaf])), (.forced 1 .leaf), (.forced 1 .leaf)]))])), (.forced 1 (.branch [(.forced 7 .leaf), (.forced 7 .leaf), (.forced 0 (.branch [(.forced 7 .leaf), (.forced 2 .leaf), (.forced 2 .leaf)])), (.forced 8 (.branch [(.forced 3 (.branch [.leaf])), (.forced 0 .leaf), (.forced 0 .leaf)])), (.forced 7 .leaf)])), (.forced 8 (.branch [(.forced 3 (.branch [(.forced 5 .leaf), (.forced 5 .leaf), (.forced 1 (.branch [.leaf]))])), (.forced 0 .leaf), (.forced 0 .leaf), (.forced 0 .leaf), (.forced 0 .leaf)])), (.forced 7 (.branch [(.forced 1 .leaf), (.forced 0 (.branch [(.forced 5 (.branch [.leaf])), (.forced 2 (.branch [.leaf])), (.forced 2 (.branch [.leaf]))])), (.forced 1 .leaf), (.forced 1 .leaf), (.forced 1 .leaf)]))])), (.forced 1 (.branch [(.forced 6 (.branch [(.forced 4 (.branch [(.forced 5 (.branch [.leaf])), (.forced 8 (.branch [.leaf])), (.forced 5 (.branch [.leaf]))])), (.forced 4 (.branch [(.forced 5 (.branch [.leaf])), (.forced 2 .leaf), (.forced 2 .leaf)])), (.forced 8 (.branch [(.forced 3 (.branch [.leaf])), (.forced 5 (.branch [.leaf])), (.forced 3 (.branch [.leaf]))])), (.forced 4 (.branch [(.forced 8 (.branch [.leaf])), (.forced 2 .leaf), (.forced 2 .leaf)])), (.forced 4 (.branch [(.forced 5 (.branch [.leaf])), (.forced 2 .leaf), (.forced 2 .leaf)]))])), (.forced 6 (.branch [(.forced 4 (.branch [(.forced 5 (.branch [.leaf])), (.forced 8 (.branch [.leaf])), (.forced 5 (.branch [.leaf]))])), (.forced 4 (.branch [(.forced 5 (.branch [.leaf])), (.forced 8 (.branch [.leaf])), (.forced 5 (.branch [.leaf]))])), (.forced 0 (.branch [(.forced 5 (.branch [.leaf])), (.forced 3 .leaf), (.forced 3 .leaf)])), (.forced 8 (.branch [(.forced 3 (.branch [.leaf])), (.forced 4 (.branch [.leaf])), (.forced 3 (.branch [.leaf]))])), (.forced 5 (.branch [(.forced 4 (.branch [.leaf])), (.forced 0 (.branch [.leaf])), (.forced 0 (.branch [.leaf]))]))])), (.forced 6 (.branch [(.forced 4 (.branch [(.forced 5 (.branch [.leaf])), (.forced 2 .leaf), (.forced 2 .leaf)])), (.forced 4 (.branch [(.forced 5 (.branch [.leaf])), (.forced 8 (.branch [.leaf])), (.forced 5 (.branch [.leaf]))])), (.forced 5 (.branch [(.forced 8 (.branch [.leaf])), (.forced 0 (.branch [.leaf])), (.forced 0 (.branch [.leaf]))])), (.forced 4 (.branch [(.forced 2 .leaf), (.forced 8 (.branch [.leaf])), (.forced 2 .leaf)])), (.forced 2 (.branch [(.forced 4 .leaf), (.forced 0 .leaf), (.forced 0 .leaf)]))])), (.forced 0 (.branch [(.forced 6 (.branch [(.forced 5 (.branch [.leaf])), (.forced 3 .leaf), (.forced 3 .leaf)])), (.forced 2 .leaf), (.forced 2 .leaf), (.forced 2 .leaf), (.forced 2 .leaf)])), (.forced 6 (.branch [(.forced 4 (.branch [(.forced 8 (.branch [.leaf])), (.forced 2 .leaf), (.forced 2 .leaf)])), (.forced 8 (.branch [(.forced 3 (.branch [.leaf])), (.forced 4 (.branch [.leaf])), (.forced 3 (.branch [.leaf]))])), (.forced 4 (.branch [(.forced 2 .leaf), (.forced 8 (.branch [.leaf])), (.forced 2 .leaf)])), (.forced 3 (.branch [(.forced 8 (.branch [.leaf])), (.forced 0 .leaf), (.forced 0 .leaf)])), (.forced 2 (.branch [(.forced 4 .leaf), (.forced 0 .leaf), (.forced 0 .leaf)]))])), (.forced 8 (.branch [(.forced 3 (.branch [(.forced 4 (.branch [.leaf])), (.forced 2 (.branch [.leaf])), (.forced 2 (.branch [.leaf]))])), (.forced 4 (.branch [(.forced 3 (.branch [.leaf])), (.forced 0 .leaf), (.forced 0 .leaf)])), (.forced 0 (.branch [(.forced 4 .leaf), (.forced 2 .leaf), (.forced 2 .leaf)])), (.forced 2 (.branch [(.forced 5 .leaf), (.forced 0 .leaf), (.forced 0 .leaf)])), (.forced 0 (.branch [(.forced 4 .leaf), (.forced 2 .leaf), (.forced 2 .leaf)]))])), (.forced 6 (.branch [(.forced 4 (.branch [(.forced 5 (.branch [.leaf])), (.forced 2 .leaf), (.forced 2 .leaf)])), (.forced 5 (.branch [(.forced 4 (.branch [.leaf])), (.forced 0 (.branch [.leaf])), (.forced 0 (.branch [.leaf]))])), (.forced 2 (.branch [(.forced 4 .leaf), (.forced 0 .leaf), (.forced 0 .leaf)])), (.forced 0 (.branch [(.forced 3 .leaf), (.forced 2 .leaf), (.forced 2 .leaf)])), (.forced 2 (.branch [(.forced 4 .leaf), (.forced 0 .leaf), (.forced 0 .leaf)]))]))])), (.forced 4 (.branch [(.forced 1 (.branch [(.forced 5 (.branch [(.forced 7 .leaf), (.forced 3 .leaf), (.forced 3 .leaf)])), (.forced 6 (.branch [(.forced 7 .leaf), (.forced 2 .leaf), (.forced 2 .leaf)])), (.forced 2 (.branch [(.forced 6 .leaf), (.forced 7 .leaf), (.forced 6 .leaf)])), (.forced 7 .leaf), (.forced 6 (.branch [(.forced 5 (.branch [.leaf])), (.forced 2 .leaf), (.forced 2 .leaf)]))])), (.forced 0 (.branch [(.forced 5 (.branch [(.forced 6 (.branch [.leaf])), (.forced 3 .leaf), (.forced 3 .leaf)])), (.forced 2 (.branch [(.forced 6 .leaf), (.forced 7 (.branch [.leaf])), (.forced 6 .leaf)])), (.forced 2 (.branch [(.forced 6 .leaf), (.forced 7 (.branch [.leaf])), (.forced 6 .leaf)])), (.forced 7 (.branch [(.forced 5 (.branch [.leaf])), (.forced 2 (.branch [.leaf])), (.forced 2 (.branch [.leaf]))])), (.forced 6 (.branch [(.forced 3 .leaf), (.forced 2 .leaf), (.forced 2 .leaf)]))])), (.forced 5 (.branch [(.forced 1 (.branch [(.forced 7 .leaf), (.forced 3 .leaf), (.forced 3 .leaf)])), (.forced 3 .leaf), (.forced 0 (.branch [(.forced 6 (.branch [.leaf])), (.forced 7 (.branch [.leaf])), (.forced 6 (.branch [.leaf]))])), (.forced 3 .leaf), (.forced 3 .leaf)])), (.forced 0 (.branch [(.forced 2 (.branch [(.forced 6 .leaf), (.forced 7 (.branch [.leaf])), (.forced 6 .leaf)])), (.forced 5 (.branch [(.forced 6 (.branch [.leaf])), (.forced 7 (.branch [.leaf])), (.forced 6 (.branch [.leaf]))])), (.forced 2 (.branch [(.forced 6 .leaf), (.forced 1 .leaf), (.forced 1 .leaf)])), (.forced 7 (.branch [(.forced 2 (.branch [.leaf])), (.forced 1 .leaf), (.forced 1 .leaf)])), (.forced 6 (.branch [(.forced 2 .leaf), (.forced 5 (.branch [.leaf])), (.forced 2 .leaf)]))])), (.forced 2 (.branch [(.forced 1 (.branch [(.forced 6 .leaf), (.forced 7 .leaf), (.forced 6 .leaf)])), (.forced 6 .leaf), (.forced 0 (.branch [(.forced 6 .leaf), (.forced 1 .leaf), (.forced 1 .leaf)])), (.forced 7 (.branch [(.forced 1 .leaf), (.forced 0 (.branch [.leaf])), (.forced 1 .leaf)])), (.forced 6 .leaf)])), (.forced 7 (.branch [(.forced 1 .leaf), (.forced 0 (.branch [(.forced 5 (.branch [.leaf])), (.forced 2 (.branch [.leaf])), (.forced 2 (.branch [.leaf]))])), (.forced 1 .leaf), (.forced 1 .leaf), (.forced 1 .leaf)])), (.forced 6 (.branch [(.forced 2 .leaf), (.forced 0 (.branch [(.forced 3 .leaf), (.forced 2 .leaf), (.forced 2 .leaf)])), (.forced 5 (.branch [(.forced 3 .leaf), (.forced 3 .leaf), (.forced 0 (.branch [.leaf]))])), (.forced 2 .leaf), (.forced 2 .leaf)]))]))])

def certX_as_X : DTree :=
  (.forced 0 (.branch [(.forced 3 (.branch [(.forced 4 (.branch [(.forced 6 .leaf), (.forced 5 .leaf), (.forced 5 .leaf), (.forced 5 .leaf)])), (.forced 6 .leaf), (.forced 4 (.branch [(.forced 6 .leaf), (.forced 8 .leaf), (.forced 2 (.branch [(.forced 8 .leaf), (.forced 6 .leaf)])), (.forced 6 .leaf)])), (.forced 4 (.branch [(.forced 5 .leaf), (.forced 8 .leaf), (.forced 5 .leaf), (.forced 5 .leaf)])), (.forced 4 (.branch [(.forced 5 .leaf), (.forced 2 (.branch [(.forced 8 .leaf), (.forced 6 .leaf)])), (.forced 5 .leaf), (.forced 5 .leaf)])), (.forced 4 (.branch [(.forced 5 .leaf), (.forced 6 .leaf), (.forced 5 .leaf), (.forced 5 .leaf)]))])), (.forced 3 (.branch [(.forced 4 (.branch [(.forced 6 .leaf), (.forced 5 .leaf), (.forced 5 .leaf), (.forced 5 .leaf)])), (.forced 6 .leaf), (.forced 6 .leaf), (.forced 4 (.branch [(.forced 5 .leaf), (.forced 8 .leaf), (.forced 5 .leaf), (.forced 5 .leaf)])), (.forced 4 (.branch [(.forced 5 .leaf), (.forced 6 .leaf), (.forced 5 .leaf), (.forced 5 .leaf)])), (.forced 5 (.branch [(.forced 4 .leaf), (.forced 6 .leaf), (.forced 4 .leaf), (.forced 4 .leaf)]))])), (.forced 1 (.branch [(.forced 4 (.branch [(.forced 7 .leaf), (.forced 5 (.branch [(.forced 8 .leaf), (.forced 7 .leaf)])), (.forced 8 .leaf), (.forced 7 .leaf)])), (.forced 2 .leaf), (.forced 2 .leaf), (.forced 2 .leaf), (.forced 2 .leaf), (.forced 2 .leaf)])), (.forced 1 (.branch [(.forced 6 (.branch [(.forced 5 (.branch [(.forced 8 .leaf), (.forced 7 .leaf)])), (.forced 3 .leaf), (.forced 3 .leaf), (.forced 3 .leaf)])), (.forced 2 .leaf), (.forced 2 .leaf), (.forced 2 .leaf), (.forced 2 .leaf), (.forced 2 .leaf)])), (.forced 2 (.branch [(.forced 4 (.branch [(.forced 6 .leaf), (.forced 8 .leaf), (.forced 3 (.branch [(.forced 8 .leaf), (.forced 6 .leaf)])), (.forced 6 .leaf)])), (.forced 1 .leaf), (.forced 1 .leaf), (.forced 1 .leaf), (.forced 1 .leaf), (.forced 1 .leaf)])), (.forced 1 (.branch [(.forced 4 (.branch [(.forced 5 (.branch [(.forced 8 .leaf), (.forced 7 .leaf)])), (.forced 7 .leaf), (.forced 8 .leaf), (.forced 7 .leaf)])), (.forced 2 .leaf), (.forced 2 .leaf), (.forced 2 .leaf), (.forced 2 .leaf), (.forced 2 .leaf)])), (.forced 2 (.branch [(.forced 4 (.branch [(.forced 5 (.branch [(.forced 8 .leaf), (.forced 6 .leaf)])), (.forced 3 (.branch [(.forced 8 .leaf), (.forced 6 .leaf)])), (.forced 8 .leaf), (.forced 6 .leaf)])), (.forced 1 .leaf), (.forced 1 .leaf), (.forced 1 .leaf), (.forced 1 .leaf), (.forced 1 .leaf)])), (.forced 2 (.branch [(.forced 6 (.branch [(.forced 4 .leaf), (.forced 3 .leaf), (.forced 3 .leaf), (.forced 3 .leaf)])), (.forced 1 .leaf), (.forced 1 .leaf), (.forced 1 .leaf), (.forced 1 .leaf), (.forced 1 .leaf)]))]))

def certX_vs_O : DTree :=
  (.branch [(.forced 4 (.branch [(.forced 2 (.branch [(.forced 6 .leaf), (.forced 6 .leaf), (.forced 3 (.branch [(.forced 7 (.branch [.leaf])), (.forced 5 .leaf), (.forced 5 .leaf)])), (.forced 3 (.branch [(.forced 6 .leaf), (.forced 5 .leaf), (.forced 5 .leaf)])), (.forced 3 (.branch [(.forced 6 .leaf), (.forced 5 .leaf), (.forced 5 .leaf)]))])), (.forced 1 (.branch [(.forced 7 .leaf), (.forced 7 .leaf), (.forced 3 (.branch [(.forced 7 .leaf), (.forced 5 .leaf), (.forced 5 .leaf)])), (.forced 3 (.branch [(.forced 8 (.branch [.leaf])), (.forced 5 .leaf), (.forced 5 .leaf)])), (.forced 5 (.branch [(.forced 7 .leaf), (.forced 3 .leaf), (.forced 3 .leaf)]))])), (.forced 6 (.branch [(.forced 2 .leaf), (.forced 1 (.branch [(.forced 7 .leaf), (.forced 5 (.branch [.leaf])), (.forced 7 .leaf)])), (.forced 1 (.branch [(.forced 7 .leaf), (.forced 2 .leaf), (.forced 2 .leaf)])), (.forced 2 .leaf), (.forced 1 (.branch [(.forced 7 .leaf), (.forced 2 .leaf), (.forced 2 .leaf)]))])), (.forced 1 (.branch [(.forced 7 .leaf), (.forced 6 (.branch [(.forced 7 .leaf), (.forced 2 .leaf), (.forced 2 .leaf)])), (.forced 7 .leaf), (.forced 6 (.branch [(.forced 8 (.branch [.leaf])), (.forced 2 .leaf), (.forced 2 .leaf)])), (.forced 2 (.branch [(.forced 6 .leaf), (.forced 7 .leaf), (.forced 6 .leaf)]))])), (.forced 3 (.branch [(.forced 5 .leaf), (.forced 1 (.branch [(.forced 7 .leaf), (.forced 5 .leaf), (.forced 5 .leaf)])), (.forced 1 (.branch [(.forced 7 .leaf), (.forced 8 (.branch [.leaf])), (.forced 7 .leaf)])), (.forced 5 .leaf), (.forced 5 .leaf)])), (.forced 3 (.branch [(.forced 2 (.branch [(.forced 6 .leaf), (.forced 5 .leaf), (.forced 5 .leaf)])), (.forced 5 .leaf), (.forced 2 (.branch [(.forced 6 .leaf), (.forced 8 (.branch [.leaf])), (.forced 6 .leaf)])), (.forced 5 .leaf), (.forced 5 .leaf)])), (.forced 1 (.branch [(.forced 5 (.branch [(.forced 7 .leaf), (.forced 3 .leaf), (.forced 3 .leaf)])), (.forced 6 (.branch [(.forced 7 .leaf), (.forced 2 .leaf), (.forced 2 .leaf)])), (.forced 2 (.branch [(.forced 6 .leaf), (.forced 7 .leaf), (.forced 6 .leaf)])), (.forced 7 .leaf), (.forced 6 (.branch [(.forced 5 (.branch [.leaf])), (.forced 2 .leaf), (.forced 2 .leaf)]))]))])), (.forced 0 (.branch [(.forced 3 (.branch [(.forced 6 .leaf), (.forced 6 .leaf), (.forced 4 (.branch [(.forced 8 .leaf), (.forced 5 .leaf), (.forced 5 .leaf)])), (.forced 4 (.branch [(.forced 6 .leaf), (.forced 5 .leaf), (.forced 5 .leaf)])), (.forced 5 (.branch [(.forced 6 .leaf), (.forced 4 .leaf), (.forced 4 .leaf)]))])), (.forced 4 (.branch [(.forced 8 .leaf), (.forced 2 (.branch [(.forced 8 .leaf), (.forced 6 .leaf), (.forced 6 .leaf)])), (.forced 8 .leaf), (.forced 2 (.branch [(.forced 6 .leaf), (.forced 8 .leaf), (.forced 6 .leaf)])), (.forced 2 (.branch [(.forced 6 .leaf), (.forced 7 (.branch [.leaf])), (.forced 6 .leaf)]))])), (.forced 7 (.branch [(.forced 6 (.branch [(.forced 8 .leaf), (.forced 3 .leaf), (.forced 3 .leaf)])), (.forced 5 (.branch [(.forced 6 (.branch [.leaf])), (.forced 2 (.branch [.leaf])), (.forced 2 (.branch [.leaf]))])), (.forced 3 (.branch [(.forced 6 .leaf), (.forced 2 (.branch [.leaf])), (.forced 6 .leaf)])), (.forced 2 (.branch [(.forced 5 (.branch [.leaf])), (.forced 3 (.branch [.leaf])), (.forced 3 (.branch [.leaf]))])), (.forced 2 (.branch [(.forced 5 (.branch [.leaf])), (.forced 3 (.branch [.leaf])), (.forced 3 (.branch [.leaf]))]))])), (.forced 6 (.branch [(.forced 3 .leaf), (.forced 4 (.branch [(.forced 8 .leaf), (.forced 2 .leaf), (.forced 2 .leaf)])), (.forced 3 .leaf), (.forced 3 .leaf), (.forced 2 (.branch [(.forced 4 .leaf), (.forced 3 .leaf), (.forced 3 .leaf)]))])), (.forced 4 (.branch [(.forced 3 (.branch [(.forced 8 .leaf), (.forced 5 .leaf), (.forced 5 .leaf)])), (.forced 8 .leaf), (.forced 8 .leaf), (.forced 8 .leaf), (.forced 7 (.branch [(.forced 5 (.branch [.leaf])), (.forced 2 (.branch [.leaf])), (.forced 2 (.branch [.leaf]))]))])), (.forced 4 (.branch [(.forced 3 (.branch [(.forced 6 .leaf), (.forced 5 .leaf), (.forced 5 .leaf)])), (.forced 2 (.branch [(.forced 6 .leaf), (.forced 8 .leaf), (.forced 6 .leaf)])), (.forced 2 (.branch [(.forced 6 .leaf), (.forced 8 .leaf), (.forced 6 .leaf)])), (.forced 8 .leaf), (.forced 6 (.branch [(.forced 3 .leaf), (.forced 2 .leaf), (.forced 2 .leaf)]))])), (.forced 4 (.branch [(.forced 5 (.branch [(.forced 6 (.branch [.leaf])), (.forced 3 .leaf), (.forced 3 .leaf)])), (.forced 2 (.branch [(.forced 6 .leaf), (.forced 7 (.branch [.leaf])), (.forced 6 .leaf)])), (.forced 2 (.branch [(.forced 6 .leaf), (.forced 7 (.branch [.leaf])), (.forced 6 .leaf)])), (.forced 7 (.branch [(.forced 5 (.branch [.leaf])), (.forced 2 (.branch [.leaf])), (.forced 2 (.branch [.leaf]))])), (.forced 6 (.branch [(.forced 3 .leaf), (.forced 2 .leaf), (.forced 2 .leaf)]))]))])), (.forced 4 (.branch [(.forced 1 (.branch [(.forced 7 .leaf), (.forced 7 .leaf), (.forced 3 (.branch [(.forced 7 .leaf), (.forced 5 .leaf), (.forced 5 .leaf)])), (.forced 3 (.branch [(.forced 8 (.branch [.leaf])), (.forced 5 .leaf), (.forced 5 .leaf)])), (.forced 5 (.branch [(.forced 7 .leaf), (.forced 3 .leaf), (.forced 3 .leaf)]))])), (.forced 0 (.branch [(.forced 8 .leaf), (.forced 8 .leaf), (.forced 3 (.branch [(.forced 8 .leaf), (.forced 5 .leaf), (.forced 5 .leaf)])), (.forced 3 (.branch [(.forced 6 .leaf), (.forced 5 .leaf), (.forced 5 .leaf)])), (.forced 5 (.branch [(.forced 6 (.branch [.leaf])), (.forced 3 .leaf), (.forced 3 .leaf)]))])), (.forced 0 (.branch [(.forced 8 .leaf), (.forced 8 .leaf), (.forced 1 (.branch [(.forced 7 .leaf), (.forced 8 .leaf), (.forced 7 .leaf)])), (.forced 8 .leaf), (.forced 5 (.branch [(.forced 6 (.branch [.leaf])), (.forced 7 (.branch [.leaf])), (.forced 6 (.branch [.leaf]))]))])), (.forced 8 (.branch [(.forced 1 (.branch [(.forced 7 .leaf), (.forced 7 .leaf), (.forced 3 (.branch [.leaf]))])), (.forced 0 .leaf), (.forced 0 .leaf), (.forced 0 .leaf), (.forced 0 .leaf)])), (.forced 1 (.branch [(.forced 3 (.branch [(.forced 7 .leaf), (.forced 5 .leaf), (.forced 5 .leaf)])), (.forced 0 (.branch [(.forced 7 .leaf), (.forced 8 .leaf), (.forced 7 .leaf)])), (.forced 7 .leaf), (.forced 8 (.branch [(.forced 3 (.branch [.leaf])), (.forced 0 .leaf), (.forced 0 .leaf)])), (.forced 7 .leaf)])), (.forced 3 (.branch [(.forced 5 .leaf), (.forced 0 (.branch [(.forced 6 .leaf), (.forced 5 .leaf), (.forced 5 .leaf)])), (.forced 8 (.branch [(.forced 1 (.branch [.leaf])), (.forced 0 .leaf), (.forced 0 .leaf)])), (.forced 5 .leaf), (.forced 5 .leaf)])), (.forced 5 (.branch [(.forced 1 (.branch [(.forced 7 .leaf), (.forced 3 .leaf), (.forced 3 .leaf)])), (.forced 3 .leaf), (.forced 0 (.branch [(.forced 6 (.branch [.leaf])), (.forced 7 (.branch [.leaf])), (.forced 6 (.branch [.leaf]))])), (.forced 3 .leaf), (.forced 3 .leaf)]))])), (.forced 0 (.branch [(.forced 4 (.branch [(.forced 8 .leaf), (.forced 2 (.branch [(.forced 8 .leaf), (.forced 6 .leaf), (.forced 6 .leaf)])), (.forced 8 .leaf), (.forced 2 (.branch [(.forced 6 .leaf), (.forced 8 .leaf), (.forced 6 .leaf)])), (.forced 2 (.branch [(.forced 6 .leaf), (.forced 7 (.branch [.leaf])), (.forced 6 .leaf)]))])), (.forced 4 (.branch [(.forced 8 .leaf), (.forced 8 .leaf), (.forced 1 (.branch [(.forced 7 .leaf), (.forced 8 .leaf), (.forced 7 .leaf)])), (.forced 8 .leaf), (.forced 5 (.branch [(.forced 6 (.branch [.leaf])), (.forced 7 (.branch [.leaf])), (.forced 6 (.branch [.leaf]))]))])), (.forced 5 (.branch [(.forced 7 (.branch [(.forced 6 (.branch [.leaf])), (.forced 2 (.branch [.leaf])), (.forced 2 (.branch [.leaf]))])), (.forced 6 (.branch [(.forced 7 (.branch [.leaf])), (.forced 1 (.branch [.leaf])), (.forced 1 (.branch [.leaf]))])), (.forced 2 (.branch [(.forced 8 .leaf), (.forced 1 .leaf), (.forced 1 .leaf)])), (.forced 1 (.branch [(.forced 6 (.branch [.leaf])), (.forced 2 .leaf), (.forced 2 .leaf)])), (.forced 1 (.branch [(.forced 6 (.branch [.leaf])), (.forced 2 .leaf), (.forced 2 .leaf)]))])), (.forced 4 (.branch [(.forced 2 (.branch [(.forced 8 .leaf), (.forced 6 .leaf), (.forced 6 .leaf)])), (.forced 8 .leaf), (.forced 1 (.branch [(.forced 7 .leaf), (.forced 2 .leaf), (.forced 2 .leaf)])), (.forced 1 (.branch [(.forced 8 .leaf), (.forced 2 .leaf), (.forced 2 .leaf)])), (.forced 2 (.branch [(.forced 6 .leaf), (.forced 1 .leaf), (.forced 1 .leaf)]))])), (.forced 1 (.branch [(.forced 4 (.branch [(.forced 7 .leaf), (.forced 8 .leaf), (.forced 7 .leaf)])), (.forced 2 .leaf), (.forced 2 .leaf), (.forced 2 .leaf), (.forced 2 .leaf)])), (.forced 2 (.branch [(.forced 4 (.branch [(.forced 6 .leaf), (.forced 8 .leaf), (.forced 6 .leaf)])), (.forced 1 .leaf), (.forced 1 .leaf), (.forced 1 .leaf), (.forced 1 .leaf)])), (.forced 2 (.branch [(.forced 4 (.branch [(.forced 6 .leaf), (.forced 7 (.branch [.leaf])), (.forced 6 .leaf)])), (.forced 1 .leaf), (.forced 1 .leaf), (.forced 1 .leaf), (.forced 1 .leaf)]))])), (.forced 0 (.branch [(.forced 7 (.branch [(.forced 6 (.branch [(.forced 8 .leaf), (.forced 3 .leaf), (.forced 3 .leaf)])), (.forced 5 (.branch [(.forced 6 (.branch [.leaf])), (.forced 2 (.branch [.leaf])), (.forced 2 (.branch [.leaf]))])), (.forced 3 (.branch [(.forced 6 .leaf), (.forced 2 (.branch [.leaf])), (.forced 6 .leaf)])), (.forced 2 (.branch [(.forced 5 (.branch [.leaf])), (.forced 3 (.branch [.leaf])), (.forced 3 (.branch [.leaf]))])), (.forced 2 (.branch [(.forced 5 (.branch [.leaf])), (.forced 3 (.branch [.leaf])), (.forced 3 (.branch [.leaf]))]))])), (.forced 6 (.branch [(.forced 3 .leaf), (.forced 5 (.branch [(.forced 7 (.branch [.leaf])), (.forced 1 (.branch [.leaf])), (.forced 1 (.branch [.leaf]))])), (.forced 3 .leaf), (.forced 3 .leaf), (.forced 3 .leaf)])), (.forced 5 (.branch [(.forced 7 (.branch [(.forced 6 (.branch [.leaf])), (.forced 2 (.branch [.leaf])), (.forced 2 (.branch [.leaf]))])), (.forced 6 (.branch [(.forced 7 (.branch [.leaf])), (.forced 1 (.branch [.leaf])), (.forced 1 (.branch [.leaf]))])), (.forced 2 (.branch [(.forced 8 .leaf), (.forced 1 .leaf), (.forced 1 .leaf)])), (.forced 1 (.branch [(.forced 6 (.branch [.leaf])), (.forced 2 .leaf), (.forced 2 .leaf)])), (.forced 1 (.branch [(.forced 6 (.branch [.leaf])), (.forced 2 .leaf), (.forced 2 .leaf)]))])), (.forced 3 (.branch [(.forced 6 .leaf), (.forced 6 .leaf), (.forced 2 (.branch [(.forced 7 (.branch [.leaf])), (.forced 1 .leaf), (.forced 1 .leaf)])), (.forced 1 (.branch [(.forced 6 .leaf), (.forced 2 .leaf), (.forced 2 .leaf)])), (.forced 2 (.branch [(.forced 6 .leaf), (.forced 1 .leaf), (.forced 1 .leaf)]))])), (.forced 2 (.branch [(.forced 7 (.branch [(.forced 5 (.branch [.leaf])), (.forced 3 (.branch [.leaf])), (.forced 3 (.branch [.leaf]))])), (.forced 1 .leaf), (.forced 1 .leaf), (.forced 1 .leaf), (.forced 1 .leaf)])), (.forced 1 (.branch [(.forced 6 (.branch [(.forced 5 (.branch [.leaf])), (.forced 3 .leaf), (.forced 3 .leaf)])), (.forced 2 .leaf), (.forced 2 .leaf), (.forced 2 .leaf), (.forced 2 .leaf)])), (.forced 2 (.branch [(.forced 7 (.branch [(.forced 5 (.branch [.leaf])), (.forced 3 (.branch [.leaf])), (.forced 3 (.branch [.leaf]))])), (.forced 1 .leaf), (.forced 1 .leaf), (.forced 1 .leaf), (.forced 1 .leaf)]))])), (.forced 2 (.branch [(.forced 3 (.branch [(.forced 4 (.branch [(.forced 7 (.branch [.leaf])), (.forced 6 .leaf), (.forced 6 .leaf)])), (.forced 8 (.branch [(.forced 7 (.branch [.leaf])), (.forced 1 (.branch [.leaf])), (.forced 1 (.branch [.leaf]))])), (.forced 4 (.branch [(.forced 7 (.branch [.leaf])), (.forced 8 (.branch [.leaf])), (.forced 7 (.branch [.leaf]))])), (.forced 4 (.branch [(.forced 6 .leaf), (.forced 8 (.branch [.leaf])), (.forced 6 .leaf)])), (.forced 4 (.branch [(.forced 6 .leaf), (.forced 7 (.branch [.leaf])), (.forced 6 .leaf)]))])), (.forced 3 (.branch [(.forced 4 (.branch [(.forced 7 (.branch [.leaf])), (.forced 6 .leaf), (.forced 6 .leaf)])), (.forced 7 (.branch [(.forced 8 (.branch [.leaf])), (.forced 0 (.branch [.leaf])), (.forced 0 (.branch [.leaf]))])), (.forced 4 (.branch [(.forced 7 (.branch [.leaf])), (.forced 8 (.branch [.leaf])), (.forced 7 (.branch [.leaf]))])), (.forced 4 (.branch [(.forced 6 .leaf), (.forced 8 (.branch [.leaf])), (.forced 6 .leaf)])), (.forced 6 (.branch [(.forced 4 .leaf), (.forced 0 .leaf), (.forced 0 .leaf)]))])), (.forced 4 (.branch [(.forced 6 .leaf), (.forced 0 (.branch [(.forced 8 .leaf), (.forced 6 .leaf), (.forced 6 .leaf)])), (.forced 0 (.branch [(.forced 8 .leaf), (.forced 1 .leaf), (.forced 1 .leaf)])), (.forced 0 (.branch [(.forced 6 .leaf), (.forced 1 .leaf), (.forced 1 .leaf)])), (.forced 0 (.branch [(.forced 6 .leaf), (.forced 1 .leaf), (.forced 1 .leaf)]))])), (.forced 3 (.branch [(.forced 8 (.branch [(.forced 7 (.branch [.leaf])), (.forced 1 (.branch [.leaf])), (.forced 1 (.branch [.leaf]))])), (.forced 7 (.branch [(.forced 8 (.branch [.leaf])), (.forced 0 (.branch [.leaf])), (.forced 0 (.branch [.leaf]))])), (.forced 0 (.branch [(.forced 7 (.branch [.leaf])), (.forced 1 .leaf), (.forced 1 .leaf)])), (.forced 1 (.branch [(.forced 8 (.branch [.leaf])), (.forced 0 .leaf), (.forced 0 .leaf)])), (.forced 0 (.branch [(.forced 6 .leaf), (.forced 1 .leaf), (.forced 1 .leaf)]))])), (.forced 0 (.branch [(.forced 4 (.branch [(.forced 8 .leaf), (.forced 8 .leaf), (.forced 7 (.branch [.leaf]))])), (.forced 1 .leaf), (.forced 1 .leaf), (.forced 1 .leaf), (.forced 1 .leaf)])), (.forced 0 (.branch [(.forced 4 (.branch [(.forced 6 .leaf), (.forced 8 .leaf), (.forced 6 .leaf)])), (.forced 1 .leaf), (.forced 1 .leaf), (.forced 1 .leaf), (.forced 1 .leaf)])), (.forced 0 (.branch [(.forced 6 (.branch [(.forced 4 .leaf), (.forced 3 .leaf), (.forced 3 .leaf)])), (.forced 1 .leaf), (.forced 1 .leaf), (.forced 1 .leaf), (.forced 1 .leaf)]))])), (.forced 4 (.branch [(.forced 3 (.branch [(.forced 5 .leaf), (.forced 1 (.branch [(.forced 7 .leaf), (.forced 5 .leaf), (.forced 5 .leaf)])), (.forced 1 (.branch [(.forced 7 .leaf), (.forced 8 (.branch [.leaf])), (.forced 7 .leaf)])), (.forced 5 .leaf), (.forced 5 .leaf)])), (.forced 0 (.branch [(.forced 3 (.branch [(.forced 8 .leaf), (.forced 5 .leaf), (.forced 5 .leaf)])), (.forced 8 .leaf), (.forced 8 .leaf), (.forced 8 .leaf), (.forced 7 (.branch [(.forced 5 (.branch [.leaf])), (.forced 2 (.branch [.leaf])), (.forced 2 (.branch [.leaf]))]))])), (.forced 1 (.branch [(.forced 3 (.branch [(.forced 7 .leaf), (.forced 5 .leaf), (.forced 5 .leaf)])), (.forced 0 (.branch [(.forced 7 .leaf), (.forced 8 .leaf), (.forced 7 .leaf)])), (.forced 7 .leaf), (.forced 8 (.branch [(.forced 3 (.branch [.leaf])), (.forced 0 .leaf), (.forced 0 .leaf)])), (.forced 7 .leaf)])), (.forced 0 (.branch [(.forced 8 .leaf), (.forced 1 (.branch [(.forced 7 .leaf), (.forced 8 .leaf), (.forced 7 .leaf)])), (.forced 1 (.branch [(.forced 7 .leaf), (.forced 2 .leaf), (.forced 2 .leaf)])), (.forced 8 .leaf), (.forced 7 (.branch [(.forced 2 (.branch [.leaf])), (.forced 1 .leaf), (.forced 1 .leaf)]))])), (.forced 1 (.branch [(.forced 7 .leaf), (.forced 7 .leaf), (.forced 0 (.branch [(.forced 7 .leaf), (.forced 2 .leaf), (.forced 2 .leaf)])), (.forced 8 (.branch [(.forced 3 (.branch [.leaf])), (.forced 0 .leaf), (.forced 0 .leaf)])), (.forced 7 .leaf)])), (.forced 8 (.branch [(.forced 3 (.branch [(.forced 5 .leaf), (.forced 5 .leaf), (.forced 1 (.branch [.leaf]))])), (.forced 0 .leaf), (.forced 0 .leaf), (.forced 0 .leaf), (.forced 0 .leaf)])), (.forced 7 (.branch [(.forced 1 .leaf), (.forced 0 (.branch [(.forced 5 (.branch [.leaf])), (.forced 2 (.branch [.leaf])), (.forced 2 (.branch [.leaf]))])), (.forced 1 .leaf), (.forced 1 .leaf), (.forced 1 .leaf)]))])), (.forced 1 (.branch [(.forced 6 (.branch [(.forced 4 (.branch [(.forced 5 (.branch [.leaf])), (.forced 8 (.branch [.leaf])), (.forced 5 (.branch [.leaf]))])), (.forced 4 (.branch [(.forced 5 (.branch [.leaf])), (.forced 2 .leaf), (.forced 2 .leaf)])), (.forced 8 (.branch [(.forced 3 (.branch [.leaf])), (.forced 5 (.branch [.leaf])), (.forced 3 (.branch [.leaf]))])), (.forced 4 (.branch [(.forced 8 (.branch [.leaf])), (.forced 2 .leaf), (.forced 2 .leaf)])), (.forced 4 (.branch [(.forced 5 (.branch [.leaf])), (.forced 2 .leaf), (.forced 2 .leaf)]))])), (.forced 6 (.branch [(.forced 4 (.branch [(.forced 5 (.branch [.leaf])), (.forced 8 (.branch [.leaf])), (.forced 5 (.branch [.leaf]))])), (.forced 4 (.branch [(.forced 5 (.branch [.leaf])), (.forced 8 (.branch [.leaf])), (.forced 5 (.branch [.leaf]))])), (.forced 0 (.branch [(.forced 5 (.branch [.leaf])), (.forced 3 .leaf), (.forced 3 .leaf)])), (.forced 8 (.branch [(.forced 3 (.branch [.leaf])), (.forced 4 (.branch [.leaf])), (.forced 3 (.branch [.leaf]))])), (.forced 5 (.branch [(.forced 4 (.branch [.leaf])), (.forced 0 (.branch [.leaf])), (.forced 0 (.branch [.leaf]))]))])), (.forced 6 (.branch [(.forced 4 (.branch [(.forced 5 (.branch [.leaf])), (.forced 2 .leaf), (.forced 2 .leaf)])), (.forced 4 (.branch [(.forced 5 (.branch [.leaf])), (.forced 8 (.branch [.leaf])), (.forced 5 (.branch [.leaf]))])), (.forced 5 (.branch [(.forced 8 (.branch [.leaf])), (.forced 0 (.branch [.leaf])), (.forced 0 (.branch [.leaf]))])), (.forced 4 (.branch [(.forced 2 .leaf), (.forced 8 (.branch [.leaf])), (.forced 2 .leaf)])), (.forced 2 (.branch [(.forced 4 .leaf), (.forced 0 .leaf), (.forced 0 .leaf)]))])), (.forced 0 (.branch [(.forced 6 (.branch [(.forced 5 (.branch [.leaf])), (.forced 3 .leaf), (.forced 3 .leaf)])), (.forced 2 .leaf), (.forced 2 .leaf), (.forced 2 .leaf), (.forced 2 .leaf)])), (.forced 6 (.branch [(.forced 4 (.branch [(.forced 8 (.branch [.leaf])), (.forced 2 .leaf), (.forced 2 .leaf)])), (.forced 8 (.branch [(.forced 3 (.branch [.leaf])), (.forced 4 (.branch [.leaf])), (.forced 3 (.branch [.leaf]))])), (.forced 4 (.branch [(.forced 2 .leaf), (.forced 8 (.branch [.leaf])), (.forced 2 .leaf)])), (.forced 3 (.branch [(.forced 8 (.branch [.leaf])), (.forced 0 .leaf), (.forced 0 .leaf)])), (.forced 2 (.branch [(.forced 4 .leaf), (.forced 0 .leaf), (.forced 0 .leaf)]))])), (.forced 8 (.branch [(.forced 3 (.branch [(.forced 4 (.branch [.leaf])), (.forced 2 (.branch [.leaf])), (.forced 2 (.branch [.leaf]))])), (.forced 4 (.branch [(.forced 3 (.branch [.leaf])), (.forced 0 .leaf), (.forced 0 .leaf)])), (.forced 0 (.branch [(.forced 4 .leaf), (.forced 2 .leaf), (.forced 2 .leaf)])), (.forced 2 (.branch [(.forced 5 .leaf), (.forced 0 .leaf), (.forced 0 .leaf)])), (.forced 0 (.branch [(.forced 4 .leaf), (.forced 2 .leaf), (.forced 2 .leaf)]))])), (.forced 6 (.branch [(.forced 4 (.branch [(.forced 5 (.branch [.leaf])), (.forced 2 .leaf), (.forced 2 .leaf)])), (.forced 5 (.branch [(.forced 4 (.branch [.leaf])), (.forced 0 (.branch [.leaf])), (.forced 0 (.branch [.leaf]))])), (.forced 2 (.branch [(.forced 4 .leaf), (.forced 0 .leaf), (.forced 0 .leaf)])), (.forced 0 (.branch [(.forced 3 .leaf), (.forced 2 .leaf), (.forced 2 .leaf)])), (.forced 2 (.branch [(.forced 4 .leaf), (.forced 0 .leaf), (.forced 0 .leaf)]))]))])), (.forced 4 (.branch [(.forced 1 (.branch [(.forced 5 (.branch [(.forced 7 .leaf), (.forced 3 .leaf), (.forced 3 .leaf)])), (.forced 6 (.branch [(.forced 7 .leaf), (.forced 2 .leaf), (.forced 2 .leaf)])), (.forced 2 (.branch [(.forced 6 .leaf), (.forced 7 .leaf), (.forced 6 .leaf)])), (.forced 7 .leaf), (.forced 6 (.branch [(.forced 5 (.branch [.leaf])), (.forced 2 .leaf), (.forced 2 .leaf)]))])), (.forced 0 (.branch [(.forced 5 (.branch [(.forced 6 (.branch [.leaf])), (.forced 3 .leaf), (.forced 3 .leaf)])), (.forced 2 (.branch [(.forced 6 .leaf), (.forced 7 (.branch [.leaf])), (.forced 6 .leaf)])), (.forced 2 (.branch [(.forced 6 .leaf), (.forced 7 (.branch [.leaf])), (.forced 6 .leaf)])), (.forced 7 (.branch [(.forced 5 (.branch [.leaf])), (.forced 2 (.branch [.leaf])), (.forced 2 (.branch [.leaf]))])), (.forced 6 (.branch [(.forced 3 .leaf), (.forced 2 .leaf), (.forced 2 .leaf)]))])), (.forced 5 (.branch [(.forced 1 (.branch [(.forced 7 .leaf), (.forced 3 .leaf), (.forced 3 .leaf)])), (.forced 3 .leaf), (.forced 0 (.branch [(.forced 6 (.branch [.leaf])), (.forced 7 (.branch [.leaf])), (.forced 6 (.branch [.leaf]))])), (.forced 3 .leaf), (.forced 3 .leaf)])), (.forced 0 (.branch [(.forced 2 (.branch [(.forced 6 .leaf), (.forced 7 (.branch [.leaf])), (.forced 6 .leaf)])), (.forced 5 (.branch [(.forced 6 (.branch [.leaf])), (.forced 7 (.branch [.leaf])), (.forced 6 (.branch [.leaf]))])), (.forced 2 (.branch [(.forced 6 .leaf), (.forced 1 .leaf), (.forced 1 .leaf)])), (.forced 7 (.branch [(.forced 2 (.branch [.leaf])), (.forced 1 .leaf), (.forced 1 .leaf)])), (.forced 6 (.branch [(.forced 2 .leaf), (.forced 5 (.branch [.leaf])), (.forced 2 .leaf)]))])), (.forced 2 (.branch [(.forced 1 (.branch [(.forced 6 .leaf), (.forced 7 .leaf), (.forced 6 .leaf)])), (.forced 6 .leaf), (.forced 0 (.branch [(.forced 6 .leaf), (.forced 1 .leaf), (.forced 1 .leaf)])), (.forced 7 (.branch [(.forced 1 .leaf), (.forced 0 (.branch [.leaf])), (.forced 1 .leaf)])), (.forced 6 .leaf)])), (.forced 7 (.branch [(.forced 1 .leaf), (.forced 0 (.branch [(.forced 5 (.branch [.leaf])), (.forced 2 (.branch [.leaf])), (.forced 2 (.branch [.leaf]))])), (.forced 1 .leaf), (.forced 1 .leaf), (.forced 1 .leaf)])), (.forced 6 (.branch [(.forced 2 .leaf), (.forced 0 (.branch [(.forced 3 .leaf), (.forced 2 .leaf), (.forced 2 .leaf)])), (.forced 5 (.branch [(.forced 3 .leaf), (.forced 3 .leaf), (.forced 0 (.branch [.leaf]))])), (.forced 2 .leaf), (.forced 2 .leaf)]))]))])

def certO_as_O : DTree :=
  (.forced 0 (.branch [(.forced 3 (.branch [(.forced 4 (.branch [(.forced 6 .leaf), (.forced 5 .leaf), (.forced 5 .leaf), (.forced 5 .leaf)])), (.forced 6 .leaf), (.forced 4 (.branch [(.forced 6 .leaf), (.forced 8 .leaf), (.forced 2 (.branch [(.forced 8 .leaf), (.forced 6 .leaf)])), (.forced 6 .leaf)])), (.forced 4 (.branch [(.forced 5 .leaf), (.forced 8 .leaf), (.forced 5 .leaf), (.forced 5 .leaf)])), (.forced 4 (.branch [(.forced 5 .leaf), (.forced 2 (.branch [(.forced 8 .leaf), (.forced 6 .leaf)])), (.forced 5 .leaf), (.forced 5 .leaf)])), (.forced 4 (.branch [(.forced 5 .leaf), (.forced 6 .leaf), (.forced 5 .leaf), (.forced 5 .leaf)]))])), (.forced 3 (.branch [(.forced 4 (.branch [(.forced 6 .leaf), (.forced 5 .leaf), (.forced 5 .leaf), (.forced 5 .leaf)])), (.forced 6 .leaf), (.forced 6 .leaf), (.forced 4 (.branch [(.forced 5 .leaf), (.forced 8 .leaf), (.forced 5 .leaf), (.forced 5 .leaf)])), (.forced 4 (.branch [(.forced 5 .leaf), (.forced 6 .leaf), (.forced 5 .leaf), (.forced 5 .leaf)])), (.forced 5 (.branch [(.forced 4 .leaf), (.forced 6 .leaf), (.forced 4 .leaf), (.forced 4 .leaf)]))])), (.forced 1 (.branch [(.forced 4 (.branch [(.forced 7 .leaf), (.forced 5 (.branch [(.forced 8 .leaf), (.forced 7 .leaf)])), (.forced 8 .leaf), (.forced 7 .leaf)])), (.forced 2 .leaf), (.forced 2 .leaf), (.forced 2 .leaf), (.forced 2 .leaf), (.forced 2 .leaf)])), (.forced 1 (.branch [(.forced 6 (.branch [(.forced 5 (.branch [(.forced 8 .leaf), (.forced 7 .leaf)])), (.forced 3 .leaf), (.forced 3 .leaf), (.forced 3 .leaf)])), (.forced 2 .leaf), (.forced 2 .leaf), (.forced 2 .leaf), (.forced 2 .leaf), (.forced 2 .leaf)])), (.forced 2 (.branch [(.forced 4 (.branch [(.forced 6 .leaf), (.forced 8 .leaf), (.forced 3 (.branch [(.forced 8 .leaf), (.forced 6 .leaf)])), (.forced 6 .leaf)])), (.forced 1 .leaf), (.forced 1 .leaf), (.forced 1 .leaf), (.forced 1 .leaf), (.forced 1 .leaf)])), (.forced 1 (.branch [(.forced 4 (.branch [(.forced 5 (.branch [(.forced 8 .leaf), (.forced 7 .leaf)])), (.forced 7 .leaf), (.forced 8 .leaf), (.forced 7 .leaf)])), (.forced 2 .leaf), (.forced 2 .leaf), (.forced 2 .leaf), (.forced 2 .leaf), (.forced 2 .leaf)])), (.forced 2 (.branch [(.forced 4 (.branch [(.forced 5 (.branch [(.forced 8 .leaf), (.forced 6 .leaf)])), (.forced 3 (.branch [(.forced 8 .leaf), (.forced 6 .leaf)])), (.forced 8 .leaf), (.forced 6 .leaf)])), (.forced 1 .leaf), (.forced 1 .leaf), (.forced 1 .leaf), (.forced 1 .leaf), (.forced 1 .leaf)])), (.forced 2 (.branch [(.forced 6 (.branch [(.forced 4 .leaf), (.forced 3 .leaf), (.forced 3 .leaf), (.forced 3 .leaf)])), (.forced 1 .leaf), (.forced 1 .leaf), (.forced 1 .leaf), (.forced 1 .leaf), (.forced 1 .leaf)]))]))

/-! ### Helper lemmas about `get_empty_squares` -/

/-- Generic fact: a property of the payloads of an enumerated list holds for
all enumerated pairs iff it holds for all elements. -/
theorem forall_enum_iff {α : Type} (L : List α) (P : α → Prop) :
    (∀ q ∈ L.enum, P q.2) ↔ (∀ c ∈ L, P c) := by
  constructor
  · intro h c hc
    rcases List.mem_iff_getElem.mp hc with ⟨k, hk, rfl⟩
    exact h (k, L[k]) (List.mk_mem_enum_iff_getElem?.mpr (List.getElem?_eq_getElem hk))
  · intro h q hq
    have h2 : L[q.1]? = some q.2 := by
      have := List.mk_mem_enum_iff_getElem? (i := q.1) (x := q.2) (l := L)
      exact this.mp (by simpa using hq)
    rcases List.getElem?_eq_some.mp h2 with ⟨hk, hget⟩
    exact hget ▸ h _ (List.mem_iff_getElem.mpr ⟨q.1, hk, rfl⟩)

/-- Membership in `get_empty_squares`: exactly the in-range indices whose
cell is `None`. -/
theorem mem_get_empty_squares {g : List (Option Nat)} {i : Nat} :
    i ∈ get_empty_squares g ↔ g[i]? = some none := by
  unfold get_empty_squares
  simp only [List.mem_map, List.mem_filter]
  constructor
  · rintro ⟨⟨k, c⟩, ⟨hmem, hnone⟩, rfl⟩
    have hc : c = none := Option.isNone_iff_eq_none.mp hnone
    subst hc
    exact List.mk_mem_enum_iff_getElem?.mp hmem
  · intro h
    exact ⟨(i, none), ⟨List.mk_mem_enum_iff_getElem?.mpr h, rfl⟩, rfl⟩

/-- A member of `get_empty_squares g` is in range. -/
theorem mem_get_empty_squares_lt {g : List (Option Nat)} {i : Nat}
    (h : i ∈ get_empty_squares g) : i < g.length := by
  rcases List.getElem?_eq_some.mp (mem_get_empty_squares.mp h) with ⟨hk, _⟩
  exact hk

/-- A member of `get_empty_squares g` addresses a `None` cell. -/
theorem mem_get_empty_squares_getD {g : List (Option Nat)} {i : Nat}
    (h : i ∈ get_empty_squares g) : g.getD i none = none := by
  rw [List.getD_eq_getElem?_getD, mem_get_empty_squares.mp h]
  rfl

/-- The empty-square list is strictly ascending. -/
theorem get_empty_squares_pairwise (g : List (Option Nat)) :
    (get_empty_squares g).Pairwise (· < ·) := by
  unfold get_empty_squares
  rw [List.pairwise_map]
  refine List.Pairwise.sublist (List.filter_sublist _) ?_
  rw [List.pairwise_iff_get]
  intro i j hij
  simp only [List.get_eq_getElem, List.getElem_enum]
  simpa using hij

/-- Length of the empty-square list as a `countP` of the grid. -/
theorem length_filter_enumFrom (t : List (Option Nat)) :
    ∀ n, ((List.enumFrom n t).filter (fun p => p.2.isNone)).length =
      t.countP (fun c => c.isNone) := by
  induction t with
  | nil => intro n; simp
  | cons c t ih =>
    intro n
    rw [List.enumFrom_cons, List.countP_cons]
    by_cases hc : c.isNone
    · simp [List.filter_cons, hc, ih (n + 1)]
    · simp [List.filter_cons, hc, ih (n + 1)]

/-- Length of `get_empty_squares` equals the count of `None` cells. -/
theorem get_empty_squares_length_eq_countP (g : List (Option Nat)) :
    (get_empty_squares g).length = g.countP (fun c => c.isNone) := by
  unfold get_empty_squares
  rw [List.length_map]
  exact length_filter_enumFrom g 0

/-- There are at most as many empty squares as cells. -/
theorem get_empty_squares_length_le (g : List (Option Nat)) :
    (get_empty_squares g).length ≤ g.length := by
  rw [get_empty_squares_length_eq_countP]
  exact List.countP_le_length _

/-- Filling an empty square strictly decreases the number of empty squares. -/
theorem get_empty_squares_set_lt {g : List (Option Nat)} {i p : Nat}
    (h : i ∈ get_empty_squares g) :
    (get_empty_squares (g.set i (some p))).length < (get_empty_squares g).length := by
  have hlt : i < g.length := mem_get_empty_squares_lt h
  have hnone : g[i] = none := by
    rcases List.getElem?_eq_some.mp (mem_get_empty_squares.mp h) with ⟨hk, hget⟩
    exact hget
  rw [get_empty_squares_length_eq_countP, get_empty_squares_length_eq_countP,
    List.countP_set _ _ _ _ hlt, hnone]
  have hpos : 0 < g.countP (fun c => c.isNone) := by
    rw [← get_empty_squares_length_eq_countP]
    exact List.length_pos.mpr (List.ne_nil_of_mem h)
  simp only [Option.isNone_none, Option.isNone_some]
  norm_num
  exact hnone ▸ List.getElem_mem hlt

/-! ### Helper lemmas about `SCORES`, the minimax loop, and fuel -/

/-- The `SCORES` table only takes values −1, 0, 1. -/
theorem SCORES_cases (n : Nat) : SCORES n = -1 ∨ SCORES n = 0 ∨ SCORES n = 1 := by
  unfold SCORES
  split <;> simp

/-- A product with a factor in `{−1, 0, 1}` preserves the `[−1, 1]` band. -/
theorem mul_pm_bounds {a x : Int} (ha : a = -1 ∨ a = 0 ∨ a = 1)
    (hx : -1 ≤ x ∧ x ≤ 1) : -1 ≤ a * x ∧ a * x ≤ 1 := by
  rcases ha with rfl | rfl | rfl <;> constructor <;> nlinarith [hx.1, hx.2]

/-- Characterization of the minimax loop: either no square ever beat the
initial accumulator (all scores strictly below it), or the result is the
score and index of the LAST square attaining the maximum (the `>=` update
lets later ties overwrite earlier ones). -/
theorem foldl_step_char (f : Nat → Int) (l : List Nat) : ∀ (m : Int) (o : Option Nat),
    (l.foldl (fun acc sq => if f sq ≥ acc.1 then (f sq, some sq) else acc) (m, o) = (m, o) ∧
      ∀ k ∈ l, f k < m) ∨
    (∃ l₁ j l₂, l = l₁ ++ j :: l₂ ∧
      l.foldl (fun acc sq => if f sq ≥ acc.1 then (f sq, some sq) else acc) (m, o) =
        (f j, some j) ∧
      m ≤ f j ∧ (∀ k ∈ l₁, f k ≤ f j) ∧ (∀ k ∈ l₂, f k < f j)) := by
  induction l with
  | nil => intro m o; exact Or.inl ⟨rfl, by simp⟩
  | cons sq l ih =>
    intro m o
    rw [List.foldl_cons]
    by_cases hc : f sq ≥ m
    · have hstep : (if f sq ≥ (m, o).1 then (f sq, some sq) else (m, o)) = (f sq, some sq) :=
        if_pos hc
      rw [hstep]
      rcases ih (f sq) (some sq) with ⟨heq, hlt⟩ | ⟨l₁, j, l₂, hsp, heq, hm, h₁, h₂⟩
      · exact Or.inr ⟨[], sq, l, rfl, heq, hc, by simp, hlt⟩
      · refine Or.inr ⟨sq :: l₁, j, l₂, by rw [hsp]; rfl, heq, le_trans hc hm, ?_, h₂⟩
        intro k hk
        rcases List.mem_cons.mp hk with rfl | hk
        · exact hm
        · exact h₁ k hk
    · have hstep : (if f sq ≥ (m, o).1 then (f sq, some sq) else (m, o)) = (m, o) :=
        if_neg hc
      rw [hstep]
      rcases ih m o with ⟨heq, hlt⟩ | ⟨l₁, j, l₂, hsp, heq, hm, h₁, h₂⟩
      · refine Or.inl ⟨heq, ?_⟩
        intro k hk
        rcases List.mem_cons.mp hk with rfl | hk
        · exact lt_of_not_ge hc
        · exact hlt k hk
      · refine Or.inr ⟨sq :: l₁, j, l₂, by rw [hsp]; rfl, heq, hm, ?_, h₂⟩
        intro k hk
        rcases List.mem_cons.mp hk with rfl | hk
        · exact le_trans (le_of_lt (lt_of_not_ge hc)) hm
        · exact h₁ k hk

/-- Unfolding `minimaxF` at a decided board: the terminal score, no move. -/
theorem minimaxF_succ_of_some (fuel : Nat) (b : Board) (p w : Nat)
    (h : (Board.get_winner b).1 = some w) :
    minimaxF (fuel + 1) b p = (SCORES w, none) := by
  simp only [minimaxF, h]

/-- Unfolding `minimaxF` at an undecided board: the loop over the empty
squares, phrased through `foldStep` and `normScoreF`. -/
theorem minimaxF_succ_of_none (fuel : Nat) (b : Board) (p : Nat)
    (h : (Board.get_winner b).1 = none) :
    minimaxF (fuel + 1) b p =
      (SCORES p * (foldStep (normScoreF fuel b p) (get_empty_squares b.grid)).1,
       (foldStep (normScoreF fuel b p) (get_empty_squares b.grid)).2) := by
  simp only [minimaxF, h, foldStep, normScoreF]

/-- The score component of `minimaxF` always lies in `[−1, 1]`. -/
theorem minimaxF_bounds : ∀ (fuel : Nat) (b : Board) (p : Nat),
    -1 ≤ (minimaxF fuel b p).1 ∧ (minimaxF fuel b p).1 ≤ 1 := by
  intro fuel
  induction fuel with
  | zero => intro b p; simp [minimaxF]
  | succ fuel ih =>
    intro b p
    cases hw : (Board.get_winner b).1 with
    | some w =>
      rw [minimaxF_succ_of_some fuel b p w hw]
      have := SCORES_cases w
      constructor <;> rcases this with h | h | h <;> simp [h]
    | none =>
      rw [minimaxF_succ_of_none fuel b p hw]
      have hr : -1 ≤ (foldStep (normScoreF fuel b p) (get_empty_squares b.grid)).1 ∧
          (foldStep (normScoreF fuel b p) (get_empty_squares b.grid)).1 ≤ 1 := by
        unfold foldStep
        rcases foldl_step_char (normScoreF fuel b p) (get_empty_squares b.grid) (-1) none with
          ⟨heq, _⟩ | ⟨l₁, j, l₂, _, heq, _, _, _⟩
        · rw [heq]; constructor <;> norm_num
        · rw [heq]
          exact mul_pm_bounds (SCORES_cases p) (ih _ _)
      exact mul_pm_bounds (SCORES_cases p) hr

/-- Grid of the cloned-and-played board: filling an empty square is a
`List.set`. -/
theorem make_move_clone_grid {b : Board} {sq p : Nat}
    (h : sq ∈ get_empty_squares b.grid) :
    (Board.make_move (Board.clone b) sq p).grid = b.grid.set sq (some p) := by
  simp [Board.make_move, Board.clone, mem_get_empty_squares.mp h]

/-- Each simulated move strictly decreases the number of empty squares. -/
theorem get_empty_squares_child_lt {b : Board} {sq p : Nat}
    (h : sq ∈ get_empty_squares b.grid) :
    (get_empty_squares (Board.make_move (Board.clone b) sq p).grid).length <
      (get_empty_squares b.grid).length := by
  rw [make_move_clone_grid h]
  exact get_empty_squares_set_lt h

/-- Fuel stability: any fuel exceeding the number of empty squares produces
the same result — the source's recursion never runs deeper than the number
of empty squares. -/
theorem minimaxF_stable : ∀ (f₁ : Nat), ∀ (f₂ : Nat) (b : Board) (p : Nat),
    (get_empty_squares b.grid).length < f₁ →
    (get_empty_squares b.grid).length < f₂ →
    minimaxF f₁ b p = minimaxF f₂ b p := by
  intro f₁
  induction f₁ with
  | zero => intro f₂ b p h₁ _; omega
  | succ f₁ ih =>
    intro f₂ b p h₁ h₂
    cases f₂ with
    | zero => omega
    | succ f₂ =>
      cases hw : (Board.get_winner b).1 with
      | some w =>
        rw [minimaxF_succ_of_some f₁ b p w hw, minimaxF_succ_of_some f₂ b p w hw]
      | none =>
        rw [minimaxF_succ_of_none f₁ b p hw, minimaxF_succ_of_none f₂ b p hw]
        have hfold : foldStep (normScoreF f₁ b p) (get_empty_squares b.grid) =
            foldStep (normScoreF f₂ b p) (get_empty_squares b.grid) := by
          unfold foldStep
          refine List.foldl_ext _ _ _ ?_
          intro acc sq hsq
          have hchild : (get_empty_squares
              (Board.make_move (Board.clone b) sq p).grid).length <
              (get_empty_squares b.grid).length := get_empty_squares_child_lt hsq
          have : minimaxF f₁ (Board.make_move (Board.clone b) sq p) (switch_player p) =
              minimaxF f₂ (Board.make_move (Board.clone b) sq p) (switch_player p) :=
            ih f₂ _ _ (by omega) (by omega)
          simp only [normScoreF, this]
        rw [hfold]

/-- Any sufficient fuel computes `minimax`. -/
theorem minimaxF_eq_minimax {f : Nat} (b : Board) (p : Nat)
    (h : (get_empty_squares b.grid).length < f) :
    minimaxF f b p = minimax b p := by
  unfold minimax
  exact minimaxF_stable f (b.grid.length + 1) b p h
    (by have := get_empty_squares_length_le b.grid; omega)

/-- The fuelled normalized child score agrees with `normScore` at any
sufficient fuel. -/
theorem normScoreF_eq_normScore {fuel : Nat} (b : Board) (p sq : Nat)
    (hsq : sq ∈ get_empty_squares b.grid)
    (h : (get_empty_squares b.grid).length ≤ fuel) :
    normScoreF fuel b p sq = normScore b p sq := by
  unfold normScoreF normScore
  have hchild := get_empty_squares_child_lt (p := p) hsq
  rw [minimaxF_eq_minimax _ _ (by omega)]

/-! ### Helper lemmas about `scan_combos` and `get_winner` -/

/-- The scan misses exactly when no scanned combo wins. -/
theorem scan_combos_eq_none_iff (g : List (Option Nat)) :
    ∀ L, scan_combos g L = none ↔ ∀ q ∈ L, ¬ line_wins g q.2 := by
  intro L
  induction L with
  | nil => simp [scan_combos]
  | cons q rest ih =>
    obtain ⟨i, combo⟩ := q
    simp only [scan_combos]
    split
    · rename_i hwin
      constructor
      · intro h; cases h
      · intro h
        exact absurd hwin (by simpa [line_wins] using h (i, combo) (List.mem_cons_self _ _))
    · rename_i hnotwin
      rw [ih]
      constructor
      · intro h q hq
        rcases List.mem_cons.mp hq with rfl | hq
        · simpa [line_wins] using hnotwin
        · exact h q hq
      · intro h q hq
        exact h q (List.mem_cons_of_mem _ hq)

/-- Scanning past non-winning combos. -/
theorem scan_combos_append_of_not (g : List (Option Nat)) (L₁ L₂ : List (Nat × List Nat))
    (h : ∀ q ∈ L₁, ¬ line_wins g q.2) :
    scan_combos g (L₁ ++ L₂) = scan_combos g L₂ := by
  induction L₁ with
  | nil => rfl
  | cons q L₁ ih =>
    obtain ⟨i, combo⟩ := q
    rw [List.cons_append]
    simp only [scan_combos]
    split
    · rename_i hwin
      exact absurd (by simpa [line_wins] using hwin)
        (h (i, combo) (List.mem_cons_self _ _))
    · exact ih (fun q hq => h q (List.mem_cons_of_mem _ hq))

/-- Scanning a winning combo stops there and reports its index and the
(unwrapped) occupant of its first cell. -/
theorem scan_combos_cons_of_wins (g : List (Option Nat)) (i : Nat) (c : List Nat)
    (L : List (Nat × List Nat)) (h : line_wins g c) :
    scan_combos g ((i, c) :: L) = some (i, (g.getD (c.getD 0 0) none).getD 0) := by
  simp only [scan_combos]
  split
  · rfl
  · rename_i hnot
    exact absurd (by simpa [line_wins] using h) hnot

/-- The winner component of `get_winner` is `none` exactly on ongoing
boards: no winning line and at least one empty square. -/
theorem get_winner_fst_none_iff (b : Board) :
    (Board.get_winner b).1 = none ↔
      ((∀ c ∈ winning_combos, ¬ line_wins b.grid c) ∧
        get_empty_squares b.grid ≠ []) := by
  unfold Board.get_winner
  cases hs : scan_combos b.grid winning_combos.enum with
  | some iw =>
    obtain ⟨i, w⟩ := iw
    simp only
    constructor
    · intro h; cases h
    · intro ⟨hno, _⟩
      have : scan_combos b.grid winning_combos.enum = none :=
        (scan_combos_eq_none_iff b.grid _).mpr
          (fun q hq => (forall_enum_iff winning_combos _).mpr hno q hq)
      rw [hs] at this; cases this
  | none =>
    have hno : ∀ c ∈ winning_combos, ¬ line_wins b.grid c :=
      (forall_enum_iff winning_combos _).mp ((scan_combos_eq_none_iff b.grid _).mp hs)
    by_cases hlen : (get_empty_squares b.grid).length = 0
    · simp only [hlen, if_pos rfl]
      simp only [List.length_eq_zero] at hlen
      simp [hno, hlen]
    · simp only [if_neg hlen]
      simp only [List.length_eq_zero] at hlen
      simpa [hlen] using hno

/-- Evaluating `get_winner` on a board whose first winning line is `c` (everything
before `c` in the table does not win): reports the occupant of `c`'s first
cell and records `c`'s position as the winning index. -/
theorem get_winner_of_first_win (b : Board) (L₁ L₂ : List (List Nat)) (c : List Nat)
    (hsplit : winning_combos = L₁ ++ c :: L₂)
    (hwin : line_wins b.grid c)
    (hbefore : ∀ c' ∈ L₁, ¬ line_wins b.grid c') :
    Board.get_winner b =
      (b.grid.getD (c.getD 0 0) none, { b with winning_index := some L₁.length }) := by
  have henum : winning_combos.enum =
      L₁.enum ++ ((L₁.length, c) :: List.enumFrom (L₁.length + 1) L₂) := by
    rw [hsplit, List.enum_append, List.enumFrom_cons]
  have hscan : scan_combos b.grid winning_combos.enum =
      some (L₁.length, (b.grid.getD (c.getD 0 0) none).getD 0) := by
    rw [henum, scan_combos_append_of_not _ _ _
      (fun q hq => (forall_enum_iff L₁ _).mpr hbefore q hq)]
    exact scan_combos_cons_of_wins _ _ _ _ hwin
  unfold Board.get_winner
  rw [hscan]
  have ha : b.grid.getD (c.getD 0 0) none ≠ none := hwin.1
  cases hval : b.grid.getD (c.getD 0 0) none with
  | none => exact absurd hval ha
  | some v => simp

/-- Evaluating `get_winner` on a full board with no winning line: a draw, winning
index reset. -/
theorem get_winner_of_draw (b : Board)
    (hno : ∀ c ∈ winning_combos, ¬ line_wins b.grid c)
    (hfull : get_empty_squares b.grid = []) :
    Board.get_winner b = (some DRAW, { b with winning_index := none }) := by
  unfold Board.get_winner
  have hscan : scan_combos b.grid winning_combos.enum = none :=
    (scan_combos_eq_none_iff b.grid _).mpr ((forall_enum_iff winning_combos _).mpr hno)
  rw [hscan, hfull]
  simp

/-- Evaluating `get_winner` on an ongoing board: no winner, the board untouched. -/
theorem get_winner_of_ongoing (b : Board)
    (hno : ∀ c ∈ winning_combos, ¬ line_wins b.grid c)
    (hne : get_empty_squares b.grid ≠ []) :
    Board.get_winner b = (none, b) := by
  unfold Board.get_winner
  have hscan : scan_combos b.grid winning_combos.enum = none :=
    (scan_combos_eq_none_iff b.grid _).mpr ((forall_enum_iff winning_combos _).mpr hno)
  rw [hscan]
  have : (get_empty_squares b.grid).length ≠ 0 := by
    simpa [List.length_eq_zero] using hne
  simp [this]

/-! ### Soundness of the strategy-certificate checker -/

/-- Corollary of `foldl_step_char` for the loop as it appears in
`minimaxF`. -/
theorem foldStep_char (f : Nat → Int) (l : List Nat) :
    (foldStep f l = (-1, none) ∧ ∀ k ∈ l, f k < -1) ∨
    (∃ l₁ j l₂, l = l₁ ++ j :: l₂ ∧ foldStep f l = (f j, some j) ∧
      -1 ≤ f j ∧ (∀ k ∈ l₁, f k ≤ f j) ∧ (∀ k ∈ l₂, f k < f j)) := by
  unfold foldStep
  exact foldl_step_char f l (-1) none

/-- Positional `all` over a zip covers every element of the left list when
the lengths agree. -/
theorem all_zip_exists {es : List Nat} (P : Nat × DTree → Bool) :
    ∀ {ts : List DTree}, es.length = ts.length → ((es.zip ts).all P = true) →
    ∀ sq ∈ es, ∃ t, P (sq, t) = true := by
  induction es with
  | nil => intro ts _ _ sq h; cases h
  | cons e es ih =>
    intro ts hlen hall sq hsq
    cases ts with
    | nil => cases hlen
    | cons t ts =>
      rw [List.zip_cons_cons, List.all_cons, Bool.and_eq_true] at hall
      rcases List.mem_cons.mp hsq with rfl | hsq
      · exact ⟨t, hall.1⟩
      · exact ih (by simpa using hlen) hall.2 sq hsq

/-- Switching the player always produces a valid player. -/
theorem switch_player_mem (p : Nat) : switch_player p = 1 ∨ switch_player p = 2 := by
  unfold switch_player PLAYER_X PLAYER_O
  split <;> simp

/-- Soundness of the certificate checker: a passing certificate for
defender `d` bounds the minimax score of the position — the defender's
side of the score is nonnegative. -/
theorem secures_sound : ∀ (fuel : Nat) (d : Nat) (b : Board) (p : Nat) (t : DTree),
    (p = 1 ∨ p = 2) → (d = 1 ∨ d = 2) →
    secures d fuel b p t = true → 0 ≤ SCORES d * (minimaxF fuel b p).1 := by
  intro fuel
  induction fuel with
  | zero => intro d b p t _ _ hsec; simp [secures] at hsec
  | succ fuel ih =>
    intro d b p t hp hd hsec
    cases hw : (Board.get_winner b).1 with
    | some w =>
      rw [minimaxF_succ_of_some fuel b p w hw]
      simp only [secures, hw] at hsec
      exact of_decide_eq_true hsec
    | none =>
      rw [minimaxF_succ_of_none fuel b p hw]
      simp only [secures, hw] at hsec
      cases t with
      | leaf => cases hsec
      | forced m t2 =>
        rw [Bool.and_eq_true, Bool.and_eq_true] at hsec
        obtain ⟨⟨hpd, hmem⟩, hrec⟩ := hsec
        have hpd : p = d := of_decide_eq_true hpd
        have hmem : m ∈ get_empty_squares b.grid := by simpa using hmem
        have hchild : 0 ≤ SCORES d *
            (minimaxF fuel (Board.make_move (Board.clone b) m p) (switch_player p)).1 :=
          ih d _ (switch_player p) t2 (switch_player_mem p) hd hrec
        have hfm : 0 ≤ normScoreF fuel b p m := by
          unfold normScoreF
          rw [← hpd] at hchild
          exact hchild
        rcases foldStep_char (normScoreF fuel b p) (get_empty_squares b.grid) with
          ⟨_, hlt⟩ | ⟨l₁, j, l₂, hsp, heq, _, h₁, h₂⟩
        · exact absurd (hlt m hmem) (by omega)
        · rw [heq]
          have hfj : 0 ≤ normScoreF fuel b p j := by
            rw [hsp] at hmem
            rcases List.mem_append.mp hmem with hm₁ | hm₂
            · exact le_trans hfm (h₁ m hm₁)
            · rcases List.mem_cons.mp hm₂ with rfl | hm₂
              · exact hfm
              · exact le_trans hfm (le_of_lt (h₂ m hm₂))
          subst hpd
          rcases hd with rfl | rfl <;>
            · simp only [SCORES] at *
              linarith
      | branch ts =>
        rw [Bool.and_eq_true, Bool.and_eq_true] at hsec
        obtain ⟨⟨hpd, hlen⟩, hall⟩ := hsec
        have hpd : p ≠ d := of_decide_eq_true hpd
        have hlen : (get_empty_squares b.grid).length = ts.length :=
          of_decide_eq_true hlen
        have hchild : ∀ sq ∈ get_empty_squares b.grid, normScoreF fuel b p sq ≤ 0 := by
          intro sq hsq
          obtain ⟨t', ht'⟩ := all_zip_exists _ hlen hall sq hsq
          have hv : 0 ≤ SCORES d *
              (minimaxF fuel (Board.make_move (Board.clone b) sq p) (switch_player p)).1 :=
            ih d _ (switch_player p) t' (switch_player_mem p) hd ht'
          unfold normScoreF
          rcases hp with rfl | rfl <;> rcases hd with rfl | rfl <;>
            first
              | exact absurd rfl hpd
              | · simp only [SCORES] at *
                  linarith
        rcases foldStep_char (normScoreF fuel b p) (get_empty_squares b.grid) with
          ⟨heq, _⟩ | ⟨l₁, j, l₂, hsp, heq, _, h₁, h₂⟩
        · rw [heq]
          rcases hp with rfl | rfl <;> rcases hd with rfl | rfl <;>
            first
              | exact absurd rfl hpd
              | · simp only [SCORES]
                  norm_num
        · rw [heq]
          have hj : normScoreF fuel b p j ≤ 0 := by
            refine hchild j ?_
            rw [hsp]
            exact List.mem_append_right _ (List.mem_cons_self _ _)
          unfold normScoreF at hj ⊢
          rcases hp with rfl | rfl <;> rcases hd with rfl | rfl <;>
            first
              | exact absurd rfl hpd
              | · simp only [SCORES] at *
                  linarith

set_option maxRecDepth 1000000 in
set_option maxHeartbeats 4000000 in
/-- Certificate check: O holds X to at most a draw from the empty board. -/
theorem cert_check_O_vs_X : secures PLAYER_O 10 emptyBoard PLAYER_X certO_vs_X = true := by
  decide

set_option maxRecDepth 1000000 in
set_option maxHeartbeats 4000000 in
/-- Certificate check: X secures at least a draw moving first. -/
theorem cert_check_X_as_X : secures PLAYER_X 10 emptyBoard PLAYER_X certX_as_X = true := by
  decide

set_option maxRecDepth 1000000 in
set_option maxHeartbeats 4000000 in
/-- Certificate check: X holds O to at most a draw from the empty board. -/
theorem cert_check_X_vs_O : secures PLAYER_X 10 emptyBoard PLAYER_O certX_vs_O = true := by
  decide

set_option maxRecDepth 1000000 in
set_option maxHeartbeats 4000000 in
/-- Certificate check: O secures at least a draw moving first. -/
theorem cert_check_O_as_O : secures PLAYER_O 10 emptyBoard PLAYER_O certO_as_O = true := by
  decide

/-- C2: `minimax` applied to the all-empty 9-cell board returns score 0,
for either player to move (X or O). -/
theorem minimax_empty_board_score_zero :
    (minimax emptyBoard PLAYER_X).1 = 0 ∧ (minimax emptyBoard PLAYER_O).1 = 0 := by
  have e1 : 0 ≤ SCORES PLAYER_O * (minimaxF 10 emptyBoard PLAYER_X).1 :=
    secures_sound 10 PLAYER_O emptyBoard PLAYER_X certO_vs_X (Or.inl rfl) (Or.inr rfl)
      cert_check_O_vs_X
  have e2 : 0 ≤ SCORES PLAYER_X * (minimaxF 10 emptyBoard PLAYER_X).1 :=
    secures_sound 10 PLAYER_X emptyBoard PLAYER_X certX_as_X (Or.inl rfl) (Or.inl rfl)
      cert_check_X_as_X
  have e3 : 0 ≤ SCORES PLAYER_X * (minimaxF 10 emptyBoard PLAYER_O).1 :=
    secures_sound 10 PLAYER_X emptyBoard PLAYER_O certX_vs_O (Or.inr rfl) (Or.inl rfl)
      cert_check_X_vs_O
  have e4 : 0 ≤ SCORES PLAYER_O * (minimaxF 10 emptyBoard PLAYER_O).1 :=
    secures_sound 10 PLAYER_O emptyBoard PLAYER_O certO_as_O (Or.inr rfl) (Or.inr rfl)
      cert_check_O_as_O
  have sO : SCORES PLAYER_O = -1 := rfl
  have sX : SCORES PLAYER_X = 1 := rfl
  rw [sO] at e1 e4
  rw [sX] at e2 e3
  have bX : minimax emptyBoard PLAYER_X = minimaxF 10 emptyBoard PLAYER_X := rfl
  have bO : minimax emptyBoard PLAYER_O = minimaxF 10 emptyBoard PLAYER_O := rfl
  rw [bX, bO]
  constructor <;> linarith

/-- Master characterization of `minimax` on an undecided board: the loop
splits the (ascending) empty-square list around the returned move `j`,
whose normalized score weakly dominates everything before it and strictly
dominates everything after it; the returned score is the mover-signed
maximal normalized value. -/
theorem minimax_char_not_terminal (b : Board) (p : Nat)
    (h : (Board.get_winner b).1 = none) :
    ∃ l₁ j l₂, get_empty_squares b.grid = l₁ ++ j :: l₂ ∧
      (minimax b p).2 = some j ∧
      (minimax b p).1 = SCORES p * normScore b p j ∧
      (∀ k ∈ l₁, normScore b p k ≤ normScore b p j) ∧
      (∀ k ∈ l₂, normScore b p k < normScore b p j) := by
  have hne : get_empty_squares b.grid ≠ [] := ((get_winner_fst_none_iff b).mp h).2
  have hle : (get_empty_squares b.grid).length ≤ b.grid.length :=
    get_empty_squares_length_le b.grid
  have hmm : minimax b p =
      (SCORES p * (foldStep (normScoreF b.grid.length b p) (get_empty_squares b.grid)).1,
       (foldStep (normScoreF b.grid.length b p) (get_empty_squares b.grid)).2) := by
    unfold minimax
    exact minimaxF_succ_of_none b.grid.length b p h
  have hbnd : ∀ k ∈ get_empty_squares b.grid, -1 ≤ normScoreF b.grid.length b p k := by
    intro k _
    exact (mul_pm_bounds (SCORES_cases p) (minimaxF_bounds _ _ _)).1
  rcases foldStep_char (normScoreF b.grid.length b p) (get_empty_squares b.grid) with
    ⟨_, hlt⟩ | ⟨l₁, j, l₂, hsp, heq, _, h₁, h₂⟩
  · obtain ⟨k, hk⟩ := List.exists_mem_of_ne_nil _ hne
    exact absurd (hbnd k hk) (by have := hlt k hk; omega)
  · have hjmem : j ∈ get_empty_squares b.grid := by
      rw [hsp]; exact List.mem_append_right _ (List.mem_cons_self _ _)
    have hnorm : ∀ k ∈ get_empty_squares b.grid,
        normScoreF b.grid.length b p k = normScore b p k := fun k hk =>
      normScoreF_eq_normScore b p k hk hle
    refine ⟨l₁, j, l₂, hsp, ?_, ?_, ?_, ?_⟩
    · rw [hmm, heq]
    · rw [hmm, heq]
      simp only
      rw [hnorm j hjmem]
    · intro k hk
      have hkmem : k ∈ get_empty_squares b.grid := by
        rw [hsp]; exact List.mem_append_left _ hk
      rw [← hnorm k hkmem, ← hnorm j hjmem]
      exact h₁ k hk
    · intro k hk
      have hkmem : k ∈ get_empty_squares b.grid := by
        rw [hsp]; exact List.mem_append_right _ (List.mem_cons_of_mem _ hk)
      rw [← hnorm k hkmem, ← hnorm j hjmem]
      exact h₂ k hk

/-- C3: the move returned by `minimax` always references an empty cell of
the input board, and the move is `None` exactly when the board is terminal
(a winning line exists or no cell is empty). -/
theorem minimax_move_legal_none_iff (b : Board) (p : Nat) :
    (∀ m, (minimax b p).2 = some m → b.grid.getD m none = none) ∧
    ((minimax b p).2 = none ↔
      ((∃ c ∈ winning_combos, line_wins b.grid c) ∨ get_empty_squares b.grid = [])) := by
  cases hw : (Board.get_winner b).1 with
  | some w =>
    have hmm : (minimax b p).2 = none := by
      unfold minimax
      rw [minimaxF_succ_of_some b.grid.length b p w hw]
    refine ⟨fun m hm => absurd (hmm ▸ hm) (by simp), ?_⟩
    simp only [hmm, true_iff]
    by_contra hc
    push_neg at hc
    have : (Board.get_winner b).1 = none :=
      (get_winner_fst_none_iff b).mpr ⟨fun c hcm hwin => hc.1 c hcm hwin, hc.2⟩
    rw [hw] at this; cases this
  | none =>
    obtain ⟨l₁, j, l₂, hsp, hmove, _, _, _⟩ := minimax_char_not_terminal b p hw
    have hjmem : j ∈ get_empty_squares b.grid := by
      rw [hsp]; exact List.mem_append_right _ (List.mem_cons_self _ _)
    constructor
    · intro m hm
      rw [hmove] at hm
      injection hm with hm
      subst hm
      exact mem_get_empty_squares_getD hjmem
    · rw [hmove]
      simp only [reduceCtorEq, false_iff]
      push_neg
      obtain ⟨hno, hne⟩ := (get_winner_fst_none_iff b).mp hw
      exact ⟨fun c hcm => hno c hcm, hne⟩

/-- C3 witness at a concrete input: on the board with only square 4 empty
and no winner, minimax returns the (legal) move 4; on a decided board it
returns no move. -/
theorem minimax_move_legal_none_iff_witness :
    (Board.mk [some 1, some 2, some 1, some 2, none, some 1, some 2, some 1, some 2]
        none).grid.getD 4 none = none := by
  refine (minimax_move_legal_none_iff
    (Board.mk [some 1, some 2, some 1, some 2, none, some 1, some 2, some 1, some 2] none)
    PLAYER_X).1 4 ?_
  decide

/-- C1 as stated is FALSE: on this board (X to move) the three empty
squares 6, 7, 8 all attain the maximal perspective-normalized value 1, yet
`minimax` returns move 8 — the last such index, not the first (6).  The
`score >= max_score` update lets later ties overwrite earlier ones. -/
theorem minimax_tie_break_first_cex :
    get_empty_squares (Board.mk
      [some 2, some 1, some 1, some 2, some 1, some 1, none, none, none] none).grid =
      [6, 7, 8] ∧
    normScore (Board.mk
      [some 2, some 1, some 1, some 2, some 1, some 1, none, none, none] none)
      PLAYER_X 6 = 1 ∧
    normScore (Board.mk
      [some 2, some 1, some 1, some 2, some 1, some 1, none, none, none] none)
      PLAYER_X 7 = 1 ∧
    normScore (Board.mk
      [some 2, some 1, some 1, some 2, some 1, some 1, none, none, none] none)
      PLAYER_X 8 = 1 ∧
    minimax (Board.mk
      [some 2, some 1, some 1, some 2, some 1, some 1, none, none, none] none)
      PLAYER_X = (1, some 8) := by
  refine ⟨by decide, by decide, by decide, by decide, by decide⟩

/-- C1 amended: on an undecided board the move returned by `minimax` is
the LAST (highest) empty index achieving the maximal perspective-normalized
minimax value, in ascending empty-index order: its normalized score weakly
dominates every empty square's, and every higher empty index scores
strictly below it. -/
theorem minimax_tie_break_last (b : Board) (p : Nat)
    (h : (Board.get_winner b).1 = none) :
    ∃ j, (minimax b p).2 = some j ∧ j ∈ get_empty_squares b.grid ∧
      (∀ k ∈ get_empty_squares b.grid, normScore b p k ≤ normScore b p j) ∧
      (∀ k ∈ get_empty_squares b.grid, j < k → normScore b p k < normScore b p j) := by
  obtain ⟨l₁, j, l₂, hsp, hmove, _, h₁, h₂⟩ := minimax_char_not_terminal b p h
  have hpw := get_empty_squares_pairwise b.grid
  rw [hsp] at hpw
  rw [List.pairwise_append] at hpw
  obtain ⟨_, _, hcross⟩ := hpw
  have hjmem : j ∈ get_empty_squares b.grid := by
    rw [hsp]; exact List.mem_append_right _ (List.mem_cons_self _ _)
  refine ⟨j, hmove, hjmem, ?_, ?_⟩
  · intro k hk
    rw [hsp] at hk
    rcases List.mem_append.mp hk with hk | hk
    · exact h₁ k hk
    · rcases List.mem_cons.mp hk with rfl | hk
      · exact le_refl _
      · exact le_of_lt (h₂ k hk)
  · intro k hk hjk
    rw [hsp] at hk
    rcases List.mem_append.mp hk with hk | hk
    · exact absurd (hcross k hk j (List.mem_cons_self _ _)) (by omega)
    · rcases List.mem_cons.mp hk with rfl | hk
      · exact absurd hjk (lt_irrefl _)
      · exact h₂ k hk

/-- C1 amended, witnessed at a concrete input (the tie board above): the
returned move 8 is the last maximizer among the empties. -/
theorem minimax_tie_break_last_witness :
    ∃ j, (minimax (Board.mk
        [some 2, some 1, some 1, some 2, some 1, some 1, none, none, none] none)
        PLAYER_X).2 = some j ∧
      j ∈ get_empty_squares (Board.mk
        [some 2, some 1, some 1, some 2, some 1, some 1, none, none, none] none).grid ∧
      (∀ k ∈ get_empty_squares (Board.mk
          [some 2, some 1, some 1, some 2, some 1, some 1, none, none, none] none).grid,
        normScore (Board.mk
          [some 2, some 1, some 1, some 2, some 1, some 1, none, none, none] none)
          PLAYER_X k ≤
        normScore (Board.mk
          [some 2, some 1, some 1, some 2, some 1, some 1, none, none, none] none)
          PLAYER_X j) ∧
      (∀ k ∈ get_empty_squares (Board.mk
          [some 2, some 1, some 1, some 2, some 1, some 1, none, none, none] none).grid,
        j < k →
        normScore (Board.mk
          [some 2, some 1, some 1, some 2, some 1, some 1, none, none, none] none)
          PLAYER_X k <
        normScore (Board.mk
          [some 2, some 1, some 1, some 2, some 1, some 1, none, none, none] none)
          PLAYER_X j) :=
  minimax_tie_break_last
    (Board.mk [some 2, some 1, some 1, some 2, some 1, some 1, none, none, none] none)
    PLAYER_X (by decide)

/-- C4: `get_winner` implements the spec's outcome evaluation.  (win) If
the winning-line table splits as `L₁ ++ c :: L₂` where `c` wins (its three
cells non-empty and identical) and nothing in `L₁` wins, the result is the
occupant of `c`'s first cell with `c`'s table position recorded as the
winning line.  (draw) If no line wins and no empty cell remains, the
result is `DRAW` with the winning-line record unset.  (ongoing) Otherwise
the result is no winner and the board — including any previous
winning-line record — is untouched. -/
theorem get_winner_outcome_spec (g : List (Option Nat)) (wi : Option Nat)
    (_h9 : g.length = 9) :
    (∀ L₁ c L₂, winning_combos = L₁ ++ c :: L₂ → line_wins g c →
      (∀ c' ∈ L₁, ¬ line_wins g c') →
      Board.get_winner (Board.mk g wi) =
        (g.getD (c.getD 0 0) none, Board.mk g (some L₁.length))) ∧
    ((∀ c ∈ winning_combos, ¬ line_wins g c) → get_empty_squares g = [] →
      Board.get_winner (Board.mk g wi) = (some DRAW, Board.mk g none)) ∧
    ((∀ c ∈ winning_combos, ¬ line_wins g c) → get_empty_squares g ≠ [] →
      Board.get_winner (Board.mk g wi) = (none, Board.mk g wi)) := by
  refine ⟨?_, ?_, ?_⟩
  · intro L₁ c L₂ hsplit hwin hbefore
    exact get_winner_of_first_win (Board.mk g wi) L₁ L₂ c hsplit hwin hbefore
  · intro hno hfull
    exact get_winner_of_draw (Board.mk g wi) hno hfull
  · intro hno hne
    exact get_winner_of_ongoing (Board.mk g wi) hno hne

/-- C4 witnessed at concrete inputs: a board won by X on the first row
(previous record overwritten with line 0), exercised through the win
branch of the characterization. -/
theorem get_winner_outcome_spec_witness :
    Board.get_winner (Board.mk
        [some 1, some 1, some 1, some 2, some 2, none, none, none, none] (some 7)) =
      ([some 1, some 1, some 1, some 2, some 2, none, none, none, none].getD
        (([0, 1, 2] : List Nat).getD 0 0) none,
       Board.mk [some 1, some 1, some 1, some 2, some 2, none, none, none, none]
         (some ([] : List (List Nat)).length)) :=
  (get_winner_outcome_spec
      [some 1, some 1, some 1, some 2, some 2, none, none, none, none] (some 7)
      (by decide)).1
    [] [0, 1, 2]
    [[3, 4, 5], [6, 7, 8], [0, 3, 6], [1, 4, 7], [2, 5, 8], [0, 4, 8], [2, 4, 6]]
    (by decide) (by decide) (by decide)

/-- C5: `minimax` terminates with fuel bounded by the number of empty
cells: fuel `empties + 1` already computes `minimax` (the recursion depth
never exceeds the number of empty cells), that number is at most 9 on a
9-cell board, and every simulated move strictly decreases it. -/
theorem minimax_depth_bound (b : Board) (p : Nat) :
    minimaxF ((get_empty_squares b.grid).length + 1) b p = minimax b p ∧
    (b.grid.length = 9 → (get_empty_squares b.grid).length ≤ 9) ∧
    (∀ sq ∈ get_empty_squares b.grid,
      (get_empty_squares (Board.make_move (Board.clone b) sq p).grid).length <
        (get_empty_squares b.grid).length) := by
  refine ⟨minimaxF_eq_minimax b p (by omega), ?_, ?_⟩
  · intro h9
    have := get_empty_squares_length_le b.grid
    omega
  · intro sq hsq
    exact get_empty_squares_child_lt hsq

/-- C5 witnessed at a concrete input (a board with two empty cells). -/
theorem minimax_depth_bound_witness :
    minimaxF ((get_empty_squares (Board.mk
        [some 1, some 2, some 1, some 2, some 1, some 2, some 1, none, none]
        none).grid).length + 1)
      (Board.mk [some 1, some 2, some 1, some 2, some 1, some 2, some 1, none, none] none)
      PLAYER_O =
      minimax
        (Board.mk [some 1, some 2, some 1, some 2, some 1, some 2, some 1, none, none] none)
        PLAYER_O ∧
    (get_empty_squares (Board.mk
        [some 1, some 2, some 1, some 2, some 1, some 2, some 1, none, none]
        none).grid).length ≤ 9 ∧
    (get_empty_squares (Board.make_move (Board.clone (Board.mk
        [some 1, some 2, some 1, some 2, some 1, some 2, some 1, none, none] none))
        7 PLAYER_O).grid).length <
      (get_empty_squares (Board.mk
        [some 1, some 2, some 1, some 2, some 1, some 2, some 1, none, none]
        none).grid).length :=
  ⟨(minimax_depth_bound
      (Board.mk [some 1, some 2, some 1, some 2, some 1, some 2, some 1, none, none] none)
      PLAYER_O).1,
   (minimax_depth_bound
      (Board.mk [some 1, some 2, some 1, some 2, some 1, some 2, some 1, none, none] none)
      PLAYER_O).2.1 (by decide),
   (minimax_depth_bound
      (Board.mk [some 1, some 2, some 1, some 2, some 1, some 2, some 1, none, none] none)
      PLAYER_O).2.2 7 (by decide)⟩

/-- Reading a just-set in-range cell through `getD`. -/
theorem getD_set_self {l : List (Option Nat)} {i : Nat} {v : Option Nat}
    (h : i < l.length) : (l.set i v).getD i none = v := by
  rw [List.getD_eq_getElem?_getD, List.getElem?_set_self h]
  rfl

/-- Reading any other cell through `getD` after a `set`. -/
theorem getD_set_ne {l : List (Option Nat)} {i j : Nat} {v : Option Nat}
    (h : i ≠ j) : (l.set i v).getD j none = l.getD j none := by
  rw [List.getD_eq_getElem?_getD, List.getElem?_set_ne h, ← List.getD_eq_getElem?_getD]

/-- C6: the move endpoint rejects a grid whose length is not 9 with the
`InvalidDimension` failure, and an otherwise valid request whose grid has
no empty cell with the `NoLegalMove` failure.  Both results are
independent of the random oracles and are produced by the validation
prefix of the handler, before any minimax search could run. -/
theorem ai_move_validation (grid : List (Option Nat)) (ai_player : Nat) (mode : String)
    (pick : List Nat → Nat) (coin : Bool) (rand09 : Nat) :
    (grid.length ≠ 9 →
      ai_move grid ai_player mode pick coin rand09 = .error .invalidDimension) ∧
    (grid.length = 9 → (ai_player = PLAYER_X ∨ ai_player = PLAYER_O) →
      mode ∈ GAME_MODES_values → get_empty_squares grid = [] →
      ai_move grid ai_player mode pick coin rand09 = .error .noLegalMove) := by
  constructor
  · intro h
    unfold ai_move
    rw [if_pos h]
  · intro h9 hp hm hempty
    unfold ai_move
    rw [if_neg (by omega), if_neg (not_not_intro hp), if_neg (not_not_intro hm)]
    simp only
    rw [if_pos hempty]

/-- C6 witnessed at concrete inputs: a 7-cell grid is rejected as
`InvalidDimension`; a full 9-cell grid is rejected as `NoLegalMove`. -/
theorem ai_move_validation_witness :
    ai_move [none, none, none, none, none, none, none] PLAYER_X "easy"
      (fun l => l.getD 0 0) false 0 = .error .invalidDimension ∧
    ai_move [some 1, some 2, some 1, some 2, some 1, some 2, some 1, some 2, some 1]
      PLAYER_O "difficult" (fun l => l.getD 0 0) false 0 = .error .noLegalMove :=
  ⟨(ai_move_validation [none, none, none, none, none, none, none] PLAYER_X "easy"
      (fun l => l.getD 0 0) false 0).1 (by decide),
   (ai_move_validation
      [some 1, some 2, some 1, some 2, some 1, some 2, some 1, some 2, some 1]
      PLAYER_O "difficult" (fun l => l.getD 0 0) false 0).2
      (by decide) (by decide) (by decide) (by decide)⟩

/-- C7: `make_move` sets the addressed cell to the player exactly when it
was empty, is a whole-board no-op when the cell is occupied, and never
touches any other cell. -/
theorem make_move_frame (b : Board) (i p : Nat) (h9 : b.grid.length = 9)
    (hi : i < 9) :
    (b.grid.getD i none = none →
      (Board.make_move b i p).grid.getD i none = some p) ∧
    (b.grid.getD i none ≠ none → Board.make_move b i p = b) ∧
    (∀ j, j ≠ i → (Board.make_move b i p).grid.getD j none = b.grid.getD j none) := by
  by_cases hc : b.grid.getD i none = none
  · have hgrid : (Board.make_move b i p).grid = b.grid.set i (some p) := by
      unfold Board.make_move
      rw [if_pos hc]
    refine ⟨fun _ => ?_, fun h => absurd hc h, fun j hj => ?_⟩
    · rw [hgrid]
      exact getD_set_self (by omega)
    · rw [hgrid]
      exact getD_set_ne (fun h => hj h.symm)
  · have hb : Board.make_move b i p = b := by
      unfold Board.make_move
      rw [if_neg hc]
    exact ⟨fun h => absurd h hc, fun _ => hb, fun j _ => by rw [hb]⟩

/-- C7 witnessed at concrete inputs: placing on the empty square 4 writes
it; placing on the occupied square 0 is a no-op; square 1 is untouched. -/
theorem make_move_frame_witness :
    (Board.make_move (Board.mk
        [some 1, none, none, none, none, none, none, none, none] none)
        4 PLAYER_O).grid.getD 4 none = some PLAYER_O ∧
    Board.make_move (Board.mk
        [some 1, none, none, none, none, none, none, none, none] none)
        0 PLAYER_O =
      Board.mk [some 1, none, none, none, none, none, none, none, none] none ∧
    (Board.make_move (Board.mk
        [some 1, none, none, none, none, none, none, none, none] none)
        4 PLAYER_O).grid.getD 1 none =
      (Board.mk [some 1, none, none, none, none, none, none, none, none]
        none).grid.getD 1 none :=
  ⟨(make_move_frame (Board.mk
        [some 1, none, none, none, none, none, none, none, none] none)
      4 PLAYER_O (by decide) (by decide)).1 (by decide),
   (make_move_frame (Board.mk
        [some 1, none, none, none, none, none, none, none, none] none)
      0 PLAYER_O (by decide) (by decide)).2.1 (by decide),
   (make_move_frame (Board.mk
        [some 1, none, none, none, none, none, none, none, none] none)
      4 PLAYER_O (by decide) (by decide)).2.2 1 (by decide)⟩

/-- C8: under reference semantics, `clone` produces a board whose grid
object holds the same cell sequence, carries no inherited winning-line
record, references fresh storage, and any later `make_move` through the
clone leaves the original board's cells unchanged. -/
theorem clone_independent (s : Store) (b : BoardObj) (h : b.gridRef < s.length) :
    (cloneS s b).2.winning_index = none ∧
    readGrid (cloneS s b).1 (cloneS s b).2.gridRef = readGrid s b.gridRef ∧
    (cloneS s b).2.gridRef ≠ b.gridRef ∧
    (∀ sq p, readGrid (make_moveS (cloneS s b).1 (cloneS s b).2 sq p) b.gridRef =
      readGrid s b.gridRef) := by
  have hread : readGrid (s ++ [readGrid s b.gridRef]) s.length = readGrid s b.gridRef := by
    unfold readGrid
    rw [List.getD_eq_getElem?_getD, List.getElem?_concat_length]
    rfl
  have hleft : readGrid (s ++ [readGrid s b.gridRef]) b.gridRef = readGrid s b.gridRef := by
    unfold readGrid
    rw [List.getD_eq_getElem?_getD, List.getElem?_append_left h,
      ← List.getD_eq_getElem?_getD]
  have hset : ∀ (S : Store) (r r' : Nat) (g : List (Option Nat)), r ≠ r' →
      readGrid (List.set S r g) r' = readGrid S r' := by
    intro S r r' g hr
    unfold readGrid
    rw [List.getD_eq_getElem?_getD, List.getElem?_set_ne hr, ← List.getD_eq_getElem?_getD]
  refine ⟨rfl, hread, by simp [cloneS]; omega, ?_⟩
  intro sq p
  unfold make_moveS
  simp only [cloneS]
  split
  · rw [hset _ _ _ _ (by omega)]
    exact hleft
  · exact hleft

/-- C8 witnessed at a concrete input: a one-object store; the clone's
reference (1) differs from the original's (0) and mutating the clone
leaves the original's cells intact. -/
theorem clone_independent_witness :
    (cloneS [[some 1, none, none, none, none, none, none, none, none]]
      (BoardObj.mk 0 (some 3))).2.winning_index = none ∧
    readGrid (cloneS [[some 1, none, none, none, none, none, none, none, none]]
        (BoardObj.mk 0 (some 3))).1
      (cloneS [[some 1, none, none, none, none, none, none, none, none]]
        (BoardObj.mk 0 (some 3))).2.gridRef =
      readGrid [[some 1, none, none, none, none, none, none, none, none]] 0 ∧
    (cloneS [[some 1, none, none, none, none, none, none, none, none]]
      (BoardObj.mk 0 (some 3))).2.gridRef ≠ 0 ∧
    (∀ sq p, readGrid
        (make_moveS (cloneS [[some 1, none, none, none, none, none, none, none, none]]
            (BoardObj.mk 0 (some 3))).1
          (cloneS [[some 1, none, none, none, none, none, none, none, none]]
            (BoardObj.mk 0 (some 3))).2 sq p) 0 =
      readGrid [[some 1, none, none, none, none, none, none, none, none]] 0) :=
  clone_independent [[some 1, none, none, none, none, none, none, none, none]]
    (BoardObj.mk 0 (some 3)) (by decide)

/-- On an all-empty 9-cell grid every index 0–8 is an empty square. -/
theorem all_none_mem_get_empty_squares {g : List (Option Nat)} {i : Nat}
    (hie : is_empty g = true) (h9 : g.length = 9) (hi : i ≤ 8) :
    i ∈ get_empty_squares g := by
  unfold is_empty at hie
  simp only [decide_eq_true_eq] at hie
  have hcnt : g.countP (fun c => c.isNone) = g.length := by
    have := get_empty_squares_length_eq_countP g
    simp [DIMENSIONS] at hie
    omega
  have hall := List.countP_eq_length.mp hcnt
  rw [mem_get_empty_squares]
  have hlt : i < g.length := by omega
  rw [List.getElem?_eq_getElem hlt]
  have hnone := hall (g.get ⟨i, hlt⟩) (List.get_mem g i hlt)
  simp only [Option.isNone_iff_eq_none, List.get_eq_getElem] at hnone
  rw [hnone]

/-- C9 amended: whenever the move endpoint returns a grid, the input cell
at the returned index was empty, the index is in range, and the returned
grid is exactly the input grid with that single cell set to the AI player
— every other cell is unchanged.  (The endpoint operates on copies, so the
caller's grid is never written; and on some valid inputs — see the
counterexample — it returns an internal failure and no grid at all.) -/
theorem ai_move_success_frame (grid : List (Option Nat)) (ai_player : Nat)
    (mode : String) (pick : List Nat → Nat) (coin : Bool) (rand09 : Nat)
    (mi : Nat) (g2 : List (Option Nat))
    (hok : ai_move grid ai_player mode pick coin rand09 = .ok (mi, g2)) :
    grid.getD mi none = none ∧ mi < 9 ∧
    g2 = grid.set mi (some ai_player) ∧
    g2.getD mi none = some ai_player ∧
    (∀ j, j ≠ mi → g2.getD j none = grid.getD j none) := by
  have hmain : mi ∈ get_empty_squares grid ∧ grid.length = 9 ∧
      g2 = grid.set mi (some ai_player) := by
    simp only [ai_move] at hok
    split at hok
    · simp at hok
    · split at hok
      · simp at hok
      · split at hok
        · simp at hok
        · split at hok
          · simp at hok
          · rename_i hlen _ _ _
            split at hok
            · rename_i mi' _
              split at hok
              · rename_i hmem
                rw [Except.ok.injEq, Prod.mk.injEq] at hok
                obtain ⟨rfl, rfl⟩ := hok
                exact ⟨hmem, by omega, rfl⟩
              · simp at hok
            · simp at hok
  obtain ⟨hmem, h9, rfl⟩ := hmain
  have hlt : mi < grid.length := mem_get_empty_squares_lt hmem
  refine ⟨mem_get_empty_squares_getD hmem, by omega, rfl, getD_set_self hlt, ?_⟩
  intro j hj
  exact getD_set_ne (fun h => hj h.symm)

/-- C9 as universally stated is FALSE: this input meets every stated
validity condition (9-cell grid with empty cells, valid AI player, valid
difficulty), yet the endpoint returns the internal failure and no grid at
all, because O has already completed line `[0,1,2]` and `minimax` on the
decided board returns no move. -/
theorem ai_move_success_frame_cex :
    ai_move [some 2, some 2, some 2, some 1, some 1, none, none, none, none]
      PLAYER_X "difficult" (fun l => l.getD 0 0) false 0 =
      .error .internalError := by
  decide

/-- C9 amended, witnessed at a concrete input: an easy-mode call on a
one-cell board returns move 1 and the grid updated exactly there. -/
theorem ai_move_success_frame_witness :
    [some 1, none, none, none, none, none, none, none, none].getD 1 none = none ∧
    1 < 9 ∧
    [some 1, some 2, none, none, none, none, none, none, none] =
      [some 1, none, none, none, none, none, none, none, none].set 1 (some PLAYER_O) ∧
    [some 1, some 2, none, none, none, none, none, none, none].getD 1 none =
      some PLAYER_O ∧
    (∀ j, j ≠ 1 →
      [some 1, some 2, none, none, none, none, none, none, none].getD j none =
        [some 1, none, none, none, none, none, none, none, none].getD j none) :=
  ai_move_success_frame
    [some 1, none, none, none, none, none, none, none, none] PLAYER_O "easy"
    (fun l => l.getD 0 0) false 0 1
    [some 1, some 2, none, none, none, none, none, none, none] (by decide)

/-- C10 amended: (1) on every undecided board `minimax` returns a move,
and that move is one of the empty squares — the `-1` initialization is a
lower bound of every normalized child score and the `>=` comparison fires
on the first iteration; consequently (2) the Easy policy never reaches the
internal-failure branch (given the `random.choice` contract), and (3) the
Hard policy never reaches it on boards that are additionally non-terminal
(given the `randint` contract).  On terminal boards with empty cells the
Hard policy DOES reach the internal-failure branch (see the
counterexample), so non-terminality cannot be dropped from (3). -/
theorem minimax_policies_no_internal_failure :
    (∀ (b : Board) (p : Nat), (Board.get_winner b).1 = none →
      ∃ m, (minimax b p).2 = some m ∧ m ∈ get_empty_squares b.grid) ∧
    (∀ (grid : List (Option Nat)) (ai_player : Nat) (pick : List Nat → Nat)
        (coin : Bool) (rand09 : Nat),
      grid.length = 9 → (ai_player = PLAYER_X ∨ ai_player = PLAYER_O) →
      get_empty_squares grid ≠ [] →
      pick (get_empty_squares grid) ∈ get_empty_squares grid →
      ai_move grid ai_player "easy" pick coin rand09 =
        .ok (pick (get_empty_squares grid),
          grid.set (pick (get_empty_squares grid)) (some ai_player))) ∧
    (∀ (grid : List (Option Nat)) (ai_player : Nat) (pick : List Nat → Nat)
        (coin : Bool) (rand09 : Nat),
      grid.length = 9 → (ai_player = PLAYER_X ∨ ai_player = PLAYER_O) →
      rand09 ≤ 8 → (Board.get_winner (Board.mk grid none)).1 = none →
      ∃ mi g2, ai_move grid ai_player "difficult" pick coin rand09 = .ok (mi, g2)) := by
  refine ⟨?_, ?_, ?_⟩
  · intro b p hw
    obtain ⟨l₁, j, l₂, hsp, hmove, _, _, _⟩ := minimax_char_not_terminal b p hw
    exact ⟨j, hmove, by
      rw [hsp]; exact List.mem_append_right _ (List.mem_cons_self _ _)⟩
  · intro grid ai_player pick coin rand09 h9 hp hne hpick
    simp only [ai_move]
    rw [if_neg (by omega), if_neg (not_not_intro hp), if_neg (not_not_intro (by decide)),
      if_neg hne, if_pos trivial]
    exact if_pos hpick
  · intro grid ai_player pick coin rand09 h9 hp hr hw
    have hne : get_empty_squares grid ≠ [] :=
      ((get_winner_fst_none_iff (Board.mk grid none)).mp hw).2
    simp only [ai_move]
    rw [if_neg (by omega), if_neg (not_not_intro hp), if_neg (not_not_intro (by decide)),
      if_neg hne, if_neg (by decide), if_neg (by decide)]
    by_cases hie : is_empty grid = true
    · rw [if_pos hie]
      exact ⟨rand09, grid.set rand09 (some ai_player),
        if_pos (all_none_mem_get_empty_squares hie h9 hr)⟩
    · rw [if_neg hie]
      obtain ⟨l₁, j, l₂, hsp, hmove, _, _, _⟩ :=
        minimax_char_not_terminal (Board.mk grid none) ai_player hw
      rw [hmove]
      have hjmem : j ∈ get_empty_squares grid := by
        have hj : j ∈ get_empty_squares (Board.mk grid none).grid := by
          rw [hsp]; exact List.mem_append_right _ (List.mem_cons_self _ _)
        exact hj
      exact ⟨j, grid.set j (some ai_player), if_pos hjmem⟩

/-- C10 as universally stated is FALSE for the Hard policy: a valid
request (9-cell grid with empty cells, valid player, Hard difficulty) on a
board X has already won reaches the internal-failure branch. -/
theorem internal_failure_reachable_cex :
    ai_move [some 1, some 1, some 1, some 2, some 2, none, none, none, none]
      PLAYER_O "difficult" (fun l => l.getD 0 0) false 0 =
      .error .internalError := by
  decide

/-- C10 amended, witnessed at concrete inputs: an undecided one-empty
board yields a move from `minimax`; an easy-mode call succeeds; a
difficult-mode call on an undecided board succeeds. -/
theorem minimax_policies_no_internal_failure_witness :
    (∃ m, (minimax (Board.mk
        [some 1, some 2, some 1, some 2, none, some 1, some 2, some 1, some 2] none)
        PLAYER_X).2 = some m ∧
      m ∈ get_empty_squares (Board.mk
        [some 1, some 2, some 1, some 2, none, some 1, some 2, some 1, some 2]
        none).grid) ∧
    ai_move [none, none, none, none, none, none, none, none, none] PLAYER_X "easy"
        (fun l => l.getD 0 0) false 0 =
      .ok ((fun (l : List Nat) => l.getD 0 0)
          (get_empty_squares [none, none, none, none, none, none, none, none, none]),
        [none, none, none, none, none, none, none, none, none].set
          ((fun (l : List Nat) => l.getD 0 0)
            (get_empty_squares [none, none, none, none, none, none, none, none, none]))
          (some PLAYER_X)) ∧
    (∃ mi g2, ai_move
        [some 1, some 2, none, none, none, none, none, none, none] PLAYER_O
        "difficult" (fun l => l.getD 0 0) false 0 = .ok (mi, g2)) :=
  ⟨minimax_policies_no_internal_failure.1
      (Board.mk [some 1, some 2, some 1, some 2, none, some 1, some 2, some 1, some 2] none)
      PLAYER_X (by decide),
   minimax_policies_no_internal_failure.2.1
      [none, none, none, none, none, none, none, none, none] PLAYER_X
      (fun l => l.getD 0 0) false 0 (by decide) (by decide) (by decide) (by decide),
   minimax_policies_no_internal_failure.2.2
      [some 1, some 2, none, none, none, none, none, none, none] PLAYER_O
      (fun l => l.getD 0 0) false 0 (by decide) (by decide) (by decide) (by decide)⟩
